import Mathlib

/-!
Verification of the MedVibe clinical-records backend (src/index.js).

The development shallowly embeds the parts of the program the claims talk
about: the JSON values that travel through request bodies and the oracle
response, the JSON.parse / JSON.stringify pair, the response interpreter of
POST /ai-diagnostico, the record/exam store with its CRUD route handlers,
the exam summarizer, and the upload filename sanitizer.  Machine-level
details that no claim touches (floating point canonicalization of numbers,
UTF-16 lone surrogates) are noted where they are approximated.
-/

namespace MedVibe

/-- Model of a JavaScript JSON value (what express.json or JSON.parse
produces).  Numbers carry their source lexeme: no claim depends on numeric
canonicalization, only on zero-ness for truthiness. -/
inductive Json where
  | null : Json
  | bool (b : Bool) : Json
  | num (lexeme : String) : Json
  | str (s : String) : Json
  | arr (l : List Json) : Json
  | obj (l : List (String × Json)) : Json

/-- A JSON number lexeme denotes zero iff every mantissa digit is zero
(the exponent part cannot make a zero mantissa nonzero). -/
def numIsZero (lx : String) : Bool :=
  (lx.data.takeWhile (fun c => !(c == 'e' || c == 'E'))).all
    (fun c => c == '0' || c == '.' || c == '-')

/-- JavaScript truthiness of a JSON value. -/
def Json.truthy : Json → Bool
  | .null => false
  | .bool b => b
  | .num lx => !(numIsZero lx)
  | .str s => !(s == "")
  | .arr _ => true
  | .obj _ => true

/-- Truthiness of a possibly-absent (undefined) field. -/
def truthyOpt : Option Json → Bool
  | none => false
  | some v => v.truthy

def Json.isStr : Json → Bool
  | .str _ => true
  | _ => false

def Json.isArr : Json → Bool
  | .arr _ => true
  | _ => false

/-- Characters removed by JavaScript String.prototype.trim (WhiteSpace and
LineTerminator code points). -/
def jsWsChar (c : Char) : Bool :=
  c == ' ' || c == '\x09' || c == '\x0a' || c == '\x0b' || c == '\x0c' ||
  c == '\x0d' || c == '\xa0' || c == '\u1680' ||
  (decide ('\u2000' ≤ c) && decide (c ≤ '\u200a')) ||
  c == '\u2028' || c == '\u2029' || c == '\u202f' || c == '\u205f' ||
  c == '\u3000' || c == '\ufeff' 

/-- Model of s.trim() for a JavaScript string. -/
def jsTrim (s : String) : String :=
  ⟨((s.data.dropWhile jsWsChar).reverse.dropWhile jsWsChar).reverse⟩

/-- Model of v.trim() on an arbitrary JavaScript value: only strings have a
trim method; any other receiver throws a TypeError. -/
def jsTrimVal : Json → Except String String
  | .str s => .ok (jsTrim s)
  | _ => .error "TypeError: trim is not a function"

/-- Model of the JavaScript logical OR on values: first operand if truthy,
otherwise second. -/
def jsOr (a b : Json) : Json := if a.truthy then a else b

-- ------------------------------------------------------------------
-- JSON.stringify (the part of it the program exercises)
-- ------------------------------------------------------------------

/-- Lowercase hex digit, as produced by JSON.stringify unicode escapes. -/
def hexDigit : Nat → Char
  | 0 => '0' | 1 => '1' | 2 => '2' | 3 => '3' | 4 => '4'
  | 5 => '5' | 6 => '6' | 7 => '7' | 8 => '8' | 9 => '9'
  | 10 => 'a' | 11 => 'b' | 12 => 'c' | 13 => 'd' | 14 => 'e' | 15 => 'f'
  | _ => '0'

/-- JSON.stringify escaping of one character of a string (ECMA-262
QuoteJSONString). -/
def escChar (c : Char) : List Char :=
  if c = '"' then ['\\', '"']
  else if c = '\\' then ['\\', '\\']
  else if c = '\x08' then ['\\', 'b']
  else if c = '\x09' then ['\\', 't']
  else if c = '\x0a' then ['\\', 'n']
  else if c = '\x0c' then ['\\', 'f']
  else if c = '\x0d' then ['\\', 'r']
  else if c.toNat < 0x20 then
    ['\\', 'u', '0', '0', hexDigit (c.toNat / 16), hexDigit (c.toNat % 16)]
  else [c]

def escStr : List Char → List Char
  | [] => []
  | c :: cs => escChar c ++ escStr cs

/-- Serialized form of a JSON string, including the surrounding quotes. -/
def quoteChars (s : String) : List Char :=
  '"' :: (escStr s.data ++ ['"'])

mutual

/-- Model of JSON.stringify on a JSON value (the program only ever
stringifies values that came in through a JSON request body). -/
def serV : Json → List Char
  | .null => "null".data
  | .bool true => "true".data
  | .bool false => "false".data
  | .num lx => lx.data
  | .str s => quoteChars s
  | .arr l => '[' :: (serL l ++ [']'])
  | .obj l => '\x7b' :: (serP l ++ ['\x7d'])

def serL : List Json → List Char
  | [] => []
  | [x] => serV x
  | x :: y :: xs => serV x ++ ',' :: serL (y :: xs)

def serP : List (String × Json) → List Char
  | [] => []
  | [(k, v)] => quoteChars k ++ ':' :: serV v
  | (k, v) :: p :: xs => quoteChars k ++ ':' :: serV v ++ ',' :: serP (p :: xs)

end

def jsonStringify (j : Json) : String := ⟨serV j⟩

-- ------------------------------------------------------------------
-- Decimal rendering of a Nat (model of JS number-to-string for the
-- integral timestamps the program interpolates into template literals)
-- ------------------------------------------------------------------

def digitChar : Nat → Char
  | 0 => '0' | 1 => '1' | 2 => '2' | 3 => '3' | 4 => '4'
  | 5 => '5' | 6 => '6' | 7 => '7' | 8 => '8' | _ => '9'

def digitsF : Nat → Nat → List Char
  | 0, _ => []
  | f+1, n => if n < 10 then [digitChar n] else digitsF f (n / 10) ++ [digitChar (n % 10)]

/-- Decimal string of a natural number, as template-literal interpolation
renders an integral JS number. -/
def natStr (n : Nat) : String := ⟨digitsF (n + 1) n⟩

-- ------------------------------------------------------------------
-- JSON.parse
-- ------------------------------------------------------------------

/-- JSON insignificant whitespace (RFC 8259: space, tab, LF, CR). -/
def isWsJson (c : Char) : Bool :=
  c == ' ' || c == '\x09' || c == '\x0a' || c == '\x0d'

def skipWs (l : List Char) : List Char := l.dropWhile isWsJson

def hexVal (c : Char) : Option Nat :=
  if '0' ≤ c ∧ c ≤ '9' then some (c.toNat - 48)
  else if 'a' ≤ c ∧ c ≤ 'f' then some (c.toNat - 87)
  else if 'A' ≤ c ∧ c ≤ 'F' then some (c.toNat - 55)
  else none

/-- Decode the body of a JSON string literal after the opening quote,
returning the decoded characters and the input after the closing quote.
Fuel-indexed (every step consumes at least one input character, so the
caller-supplied fuel of length+1 always suffices).  Surrogate pairs in
unicode escapes are combined; a lone surrogate (which a Lean Char cannot
carry, while a JS string can) is approximated by U+FFFD — no claim
exercises lone surrogates. -/
def parseStrBodyF : Nat → List Char → Option (List Char × List Char)
  | 0, _ => none
  | f+1, l =>
    match l with
    | [] => none
    | c :: rest =>
      if c = '"' then some ([], rest)
      else if c = '\\' then
        match rest with
        | [] => none
        | e :: rest2 =>
          if e = '"' then
            match parseStrBodyF f rest2 with
            | some (s, r) => some ('"' :: s, r)
            | none => none
          else if e = '\\' then
            match parseStrBodyF f rest2 with
            | some (s, r) => some ('\\' :: s, r)
            | none => none
          else if e = '/' then
            match parseStrBodyF f rest2 with
            | some (s, r) => some ('/' :: s, r)
            | none => none
          else if e = 'b' then
            match parseStrBodyF f rest2 with
            | some (s, r) => some ('\x08' :: s, r)
            | none => none
          else if e = 'f' then
            match parseStrBodyF f rest2 with
            | some (s, r) => some ('\x0c' :: s, r)
            | none => none
          else if e = 'n' then
            match parseStrBodyF f rest2 with
            | some (s, r) => some ('\x0a' :: s, r)
            | none => none
          else if e = 'r' then
            match parseStrBodyF f rest2 with
            | some (s, r) => some ('\x0d' :: s, r)
            | none => none
          else if e = 't' then
            match parseStrBodyF f rest2 with
            | some (s, r) => some ('\x09' :: s, r)
            | none => none
          else if e = 'u' then
            match rest2 with
            | h1 :: h2 :: h3 :: h4 :: rest3 =>
              match hexVal h1, hexVal h2, hexVal h3, hexVal h4 with
              | some a, some b, some g, some d =>
                let m := a * 4096 + b * 256 + g * 16 + d
                if 0xd800 ≤ m ∧ m ≤ 0xdbff then
                  match rest3 with
                  | '\\' :: 'u' :: g1 :: g2 :: g3 :: g4 :: rest4 =>
                    match hexVal g1, hexVal g2, hexVal g3, hexVal g4 with
                    | some a2, some b2, some g2v, some d2 =>
                      let lo := a2 * 4096 + b2 * 256 + g2v * 16 + d2
                      if 0xdc00 ≤ lo ∧ lo ≤ 0xdfff then
                        match parseStrBodyF f rest4 with
                        | some (s, r) =>
                          some (Char.ofNat (0x10000 + (m - 0xd800) * 1024 + (lo - 0xdc00)) :: s, r)
                        | none => none
                      else
                        match parseStrBodyF f rest3 with
                        | some (s, r) => some ('\ufffd' :: s, r)
                        | none => none
                    | _, _, _, _ =>
                      match parseStrBodyF f rest3 with
                      | some (s, r) => some ('\ufffd' :: s, r)
                      | none => none
                  | _ =>
                    match parseStrBodyF f rest3 with
                    | some (s, r) => some ('\ufffd' :: s, r)
                    | none => none
                else if 0xdc00 ≤ m ∧ m ≤ 0xdfff then
                  match parseStrBodyF f rest3 with
                  | some (s, r) => some ('\ufffd' :: s, r)
                  | none => none
                else
                  match parseStrBodyF f rest3 with
                  | some (s, r) => some (Char.ofNat m :: s, r)
                  | none => none
              | _, _, _, _ => none
            | _ => none
          else none
      else if c.toNat < 0x20 then none
      else
        match parseStrBodyF f rest with
        | some (s, r) => some (c :: s, r)
        | none => none

/-- Entry point used by the value parser: the fuel is one more than the
remaining input length, which is always enough. -/
def parseStrBody (l : List Char) : Option (List Char × List Char) :=
  parseStrBodyF (l.length + 1) l

/-- Fraction-and-exponent tail of a JSON number; acc is the lexeme so far. -/
def parseNumTail (acc : List Char) (l : List Char) : Option (List Char × List Char) :=
  let step1 :=
    match l with
    | '.' :: t =>
      match t.takeWhile Char.isDigit with
      | [] => none
      | ds => some (acc ++ '.' :: ds, t.dropWhile Char.isDigit)
    | _ => some (acc, l)
  match step1 with
  | none => none
  | some (acc2, l2) =>
    match l2 with
    | e :: t =>
      if e = 'e' ∨ e = 'E' then
        let (sgn, t2) :=
          match t with
          | '+' :: t3 => (['+'], t3)
          | '-' :: t3 => (['-'], t3)
          | _ => (([] : List Char), t)
        match t2.takeWhile Char.isDigit with
        | [] => none
        | ds => some (acc2 ++ e :: sgn ++ ds, t2.dropWhile Char.isDigit)
      else some (acc2, l2)
    | [] => some (acc2, l2)

/-- JSON number literal (RFC 8259 grammar), returning its lexeme. -/
def parseNum (l : List Char) : Option (List Char × List Char) :=
  let (sgn, l1) :=
    match l with
    | '-' :: t => ((['-'] : List Char), t)
    | _ => (([] : List Char), l)
  match l1 with
  | [] => none
  | c :: t =>
    if c = '0' then parseNumTail (sgn ++ ['0']) t
    else if c.isDigit then
      parseNumTail (sgn ++ c :: t.takeWhile Char.isDigit) (t.dropWhile Char.isDigit)
    else none

/-- JSON.parse object semantics for duplicate keys: the later value wins,
keys keep first-occurrence order. -/
def insertPair (ps : List (String × Json)) (kv : String × Json) : List (String × Json) :=
  if ps.any (fun p => p.1 == kv.1) then
    ps.map (fun p => if p.1 == kv.1 then (p.1, kv.2) else p)
  else ps ++ [kv]

def mkObjPairs (ps : List (String × Json)) : List (String × Json) :=
  ps.foldl insertPair []

/-- Comma-separated array elements up to the closing bracket; pv parses one
value (consuming leading whitespace), fuel bounds the number of elements. -/
def parseElemsF (pv : List Char → Option (Json × List Char)) :
    Nat → List Char → Option (List Json × List Char)
  | 0, _ => none
  | n+1, l =>
    match pv l with
    | none => none
    | some (v, r) =>
      match skipWs r with
      | [] => none
      | c :: r2 =>
        if c = ',' then
          match parseElemsF pv n r2 with
          | some (vs, r3) => some (v :: vs, r3)
          | none => none
        else if c = ']' then some ([v], r2)
        else none

/-- Comma-separated object members up to the closing brace. -/
def parseMembsF (pv : List Char → Option (Json × List Char)) :
    Nat → List Char → Option (List (String × Json) × List Char)
  | 0, _ => none
  | n+1, l =>
    match skipWs l with
    | [] => none
    | c :: r =>
      if c = '"' then
        match parseStrBody r with
        | none => none
        | some (k, r2) =>
          match skipWs r2 with
          | [] => none
          | c2 :: r3 =>
            if c2 = ':' then
              match pv r3 with
              | none => none
              | some (v, r4) =>
                match skipWs r4 with
                | [] => none
                | c3 :: r5 =>
                  if c3 = ',' then
                    match parseMembsF pv n r5 with
                    | some (ps, r6) => some ((⟨k⟩, v) :: ps, r6)
                    | none => none
                  else if c3 = '\x7d' then some ([(⟨k⟩, v)], r5)
                  else none
            else none
      else none

/-- One JSON value (leading whitespace allowed), fuel-indexed; the fuel
passed by jsonParse always suffices because every nesting level and every
element consumes at least one input character. -/
def parseValue : Nat → List Char → Option (Json × List Char)
  | 0, _ => none
  | n+1, l =>
    match skipWs l with
    | [] => none
    | c :: r =>
      if c = '"' then
        match parseStrBody r with
        | some (s, r2) => some (.str ⟨s⟩, r2)
        | none => none
      else if c = '[' then
        match skipWs r with
        | ']' :: r2 => some (.arr [], r2)
        | _ =>
          match parseElemsF (parseValue n) (n+1) r with
          | some (vs, r2) => some (.arr vs, r2)
          | none => none
      else if c = '\x7b' then
        match skipWs r with
        | '\x7d' :: r2 => some (.obj [], r2)
        | _ =>
          match parseMembsF (parseValue n) (n+1) r with
          | some (ps, r2) => some (.obj (mkObjPairs ps), r2)
          | none => none
      else if c = 't' then
        match r with
        | 'r' :: 'u' :: 'e' :: r2 => some (.bool true, r2)
        | _ => none
      else if c = 'f' then
        match r with
        | 'a' :: 'l' :: 's' :: 'e' :: r2 => some (.bool false, r2)
        | _ => none
      else if c = 'n' then
        match r with
        | 'u' :: 'l' :: 'l' :: r2 => some (.null, r2)
        | _ => none
      else
        match parseNum (c :: r) with
        | some (lx, r2) => some (.num ⟨lx⟩, r2)
        | none => none

/-- Model of JSON.parse: some value on success, none where JS throws a
SyntaxError. -/
def jsonParse (s : String) : Option Json :=
  match parseValue (s.length + 1) s.data with
  | some (v, r) => if skipWs r = [] then some v else none
  | none => none

-- ------------------------------------------------------------------
-- Response interpreter of POST /ai-diagnostico  (src/index.js:332-338)
-- ------------------------------------------------------------------

/-- Model of raw.match with the brace-extraction pattern used at
src/index.js:336: the regex matches from the first opening brace through a
closing brace that must be the last character of the string; m[0] is that
substring. -/
def braceMatch (raw : String) : Option String :=
  if raw.data.getLast? = some '\x7d' ∧ raw.data.contains '\x7b' then
    some ⟨raw.data.dropWhile (fun c => !(c == '\x7b'))⟩
  else none

/-- Fallback object built when no brace-delimited candidate exists:
texto gets the raw text, or the literal placeholder when raw is falsy. -/
def fallbackSugestao (raw : String) : Json :=
  .obj [("texto", .str (if raw = "" then "sem resposta" else raw))]

/-- The response interpretation of src/index.js:332-338.  The ok branch is
the sugestao value; the error branch models a SyntaxError thrown by the
second JSON.parse inside the catch block, which escapes to the route-level
try/catch. -/
def interpretResposta (raw : String) : Except String Json :=
  match jsonParse raw with
  | some v => .ok v
  | none =>
    match braceMatch raw with
    | some m =>
      match jsonParse m with
      | some v => .ok v
      | none => .error "SyntaxError in catch block"
    | none => .ok (fallbackSugestao raw)

-- ------------------------------------------------------------------
-- JS template-literal string conversion of a value
-- ------------------------------------------------------------------

mutual

/-- Template-literal conversion of a JS value to a string (used for the
interpolations in the AI prompt and exam-summary lines).  Number lexemes
are kept as-is (JS would print the canonical double; no claim depends on
it). -/
def jsDispV : Json → String
  | .null => "null"
  | .bool true => "true"
  | .bool false => "false"
  | .num lx => lx
  | .str s => s
  | .arr l => jsDispL l
  | .obj _ => "[object Object]"

/-- Array.prototype.toString: elements joined by commas, null rendered
empty. -/
def jsDispL : List Json → String
  | [] => ""
  | .null :: [] => ""
  | x :: [] => jsDispV x
  | .null :: y :: xs => "," ++ jsDispL (y :: xs)
  | x :: y :: xs => jsDispV x ++ "," ++ jsDispL (y :: xs)

end

def jsDisplay (v : Json) : String := jsDispV v

-- ------------------------------------------------------------------
-- The record store (SQLite tables prontuarios and exames)
-- ------------------------------------------------------------------

/-- One row of the prontuarios table.  Column values are the bound JS
values; exames_solicitados is TEXT produced by the route handlers. -/
structure PRow where
  id : Nat
  nome : Json
  cpf : Json
  data_consulta : Json
  diagnostico : Json
  sintomas : Json
  anamnese : Json
  exames_solicitados : String

/-- One row of the exames table.  created_at models the datetime text
assigned at insert time (ordered as the timestamps are). -/
structure ExamRow where
  id : Nat
  prontuario_id : Nat
  tipo : Json
  observacoes : Json
  arquivo_path : Json
  resultado_texto : Json
  data_resultado : Json
  created_at : Nat

/-- The SQLite database: both tables plus their AUTOINCREMENT counters. -/
structure DB where
  prontuarios : List PRow
  nextPid : Nat
  exames : List ExamRow
  nextEid : Nat

/-- Route handler outcome: HTTP status plus lastID when a row was
inserted/affected. -/
structure CrudOut where
  status : Nat
  id : Option Nat

/-- Decimal digit-string conversion (the part of text-to-integer affinity
the routes exercise). -/
def strToNat (s : String) : Option Nat :=
  if s.data ≠ [] ∧ s.data.all Char.isDigit then
    some (s.data.foldl (fun acc c => acc * 10 + (c.toNat - 48)) 0)
  else none

/-- SQLite integer affinity applied to a bound parameter compared against
an INTEGER column (route ids and prontuario_id arrive as strings). -/
def jsonToNat : Json → Option Nat
  | .num lx => strToNat lx
  | .str s => strToNat s
  | _ => none

-- ------------------------------------------------------------------
-- CRUD routes for /prontuario  (src/index.js:348-404)
-- ------------------------------------------------------------------

/-- Request body of POST /prontuario and PUT /prontuario/:id. -/
structure ProntBody where
  nome : Option Json
  cpf : Option Json
  data_consulta : Option Json
  diagnostico : Option Json
  sintomas : Option Json
  anamnese : Option Json
  exames_solicitados : Option Json

/-- The required-fields check: if (!nome || !cpf || !data_consulta ||
!diagnostico) return 400. -/
def requiredOk (b : ProntBody) : Bool :=
  truthyOpt b.nome && truthyOpt b.cpf && truthyOpt b.data_consulta &&
    truthyOpt b.diagnostico

/-- examesStr = Array.isArray(exames_solicitados) ?
JSON.stringify(exames_solicitados) : a serialized empty list (the
destructuring default is the empty array). -/
def examesStr (b : ProntBody) : String :=
  match b.exames_solicitados.getD (Json.arr []) with
  | Json.arr l => jsonStringify (Json.arr l)
  | _ => "[]"

/-- POST /prontuario (src/index.js:348-362). -/
def createProntuario (db : DB) (b : ProntBody) : DB × CrudOut :=
  if requiredOk b then
    (⟨db.prontuarios ++
        [⟨db.nextPid, b.nome.getD .null, b.cpf.getD .null,
          b.data_consulta.getD .null, b.diagnostico.getD .null,
          b.sintomas.getD (.str ""), b.anamnese.getD (.str ""), examesStr b⟩],
      db.nextPid + 1, db.exames, db.nextEid⟩,
     ⟨201, some db.nextPid⟩)
  else (db, ⟨400, none⟩)

/-- The row produced by the UPDATE statement for a matching id. -/
def updatedRow (r : PRow) (b : ProntBody) : PRow :=
  ⟨r.id, b.nome.getD .null, b.cpf.getD .null, b.data_consulta.getD .null,
    b.diagnostico.getD .null, b.sintomas.getD (.str ""),
    b.anamnese.getD (.str ""), examesStr b⟩

/-- PUT /prontuario/:id (src/index.js:364-383); the id is modelled as the
numeric id the path parameter denotes (the parameter is a non-empty string,
so the !id guard never fires). -/
def updateProntuario (db : DB) (id : Nat) (b : ProntBody) : DB × CrudOut :=
  if requiredOk b then
    if db.prontuarios.any (fun r => r.id == id) then
      (⟨db.prontuarios.map (fun r => if r.id == id then updatedRow r b else r),
        db.nextPid, db.exames, db.nextEid⟩, ⟨200, some id⟩)
    else (db, ⟨404, none⟩)
  else (db, ⟨400, none⟩)

/-- DELETE /prontuario/:id (src/index.js:385-394); ON DELETE CASCADE
removes the exams of the record. -/
def deleteProntuario (db : DB) (id : Nat) : DB × CrudOut :=
  if db.prontuarios.any (fun r => r.id == id) then
    (⟨db.prontuarios.filter (fun r => !(r.id == id)), db.nextPid,
      db.exames.filter (fun e => !(e.prontuario_id == id)), db.nextEid⟩,
     ⟨200, some id⟩)
  else (db, ⟨404, none⟩)

/-- ORDER BY id DESC. -/
def newestFirst (a b : PRow) : Prop := b.id ≤ a.id

instance : DecidableRel newestFirst :=
  fun a b => inferInstanceAs (Decidable (b.id ≤ a.id))

instance : IsTotal PRow newestFirst := ⟨fun a b => Nat.le_total b.id a.id⟩

instance : IsTrans PRow newestFirst := ⟨fun _ _ _ h1 h2 => Nat.le_trans h2 h1⟩

def listProntuarios (db : DB) : List PRow :=
  List.insertionSort newestFirst db.prontuarios

/-- JSON.parse(r.exames_solicitados || chr 91 chr 93) with a catch
returning the empty array. -/
def decodeExames (s : String) : Json :=
  match jsonParse (if s == "" then "[]" else s) with
  | some v => v
  | none => Json.arr []

/-- A record as returned by GET /prontuarios: the stored row with the
exames_solicitados text decoded. -/
structure POut where
  id : Nat
  nome : Json
  cpf : Json
  data_consulta : Json
  diagnostico : Json
  sintomas : Json
  anamnese : Json
  exames_solicitados : Json

/-- GET /prontuarios (src/index.js:396-404). -/
def getProntuarios (db : DB) : List POut :=
  (listProntuarios db).map (fun r =>
    ⟨r.id, r.nome, r.cpf, r.data_consulta, r.diagnostico, r.sintomas,
      r.anamnese, decodeExames r.exames_solicitados⟩)

-- ------------------------------------------------------------------
-- Exam summarizer  (fetchExamsSummary, src/index.js:213-239)
-- ------------------------------------------------------------------

/-- ORDER BY created_at DESC. -/
def recentFirst (a b : ExamRow) : Prop := b.created_at ≤ a.created_at

instance : DecidableRel recentFirst :=
  fun a b => inferInstanceAs (Decidable (b.created_at ≤ a.created_at))

instance : IsTotal ExamRow recentFirst :=
  ⟨fun a b => Nat.le_total b.created_at a.created_at⟩

instance : IsTrans ExamRow recentFirst :=
  ⟨fun _ _ _ h1 h2 => Nat.le_trans h2 h1⟩

/-- The rows returned by the summarizer query for a bound prontuario_id
value (SQLite integer affinity; no row matches a non-numeric value). -/
def examRows (db : DB) (pidVal : Json) : List ExamRow :=
  match jsonToNat pidVal with
  | some n => List.insertionSort recentFirst
      (db.exames.filter (fun e => e.prontuario_id == n))
  | none => []

def noteSemLaudo : String := "Sem laudo textual: interpretar arquivo anexado."

/-- The parts array built for one exam row (src/index.js:223-232).  The
r.archivo_path misspelling in the source is always undefined, so the
file-reference condition and value reduce to arquivo_path. -/
def renderParts (r : ExamRow) : List String :=
  (if r.tipo.truthy then ["Tipo: " ++ jsDisplay r.tipo] else []) ++
  (if r.data_resultado.truthy then
    ["Data de anexo: " ++ jsDisplay r.data_resultado] else []) ++
  (if r.resultado_texto.truthy then
    ["Resultado textual: " ++ jsDisplay r.resultado_texto] else []) ++
  (if r.observacoes.truthy then ["Obs: " ++ jsDisplay r.observacoes] else []) ++
  (if r.arquivo_path.truthy then
    ("Arquivo: " ++ jsDisplay r.arquivo_path) ::
      (if r.resultado_texto.truthy then [] else [noteSemLaudo])
   else [])

/-- Array.prototype.join with a separator. -/
def joinSep (sep : String) : List String → String
  | [] => ""
  | [x] => x
  | x :: y :: xs => x ++ sep ++ joinSep sep (y :: xs)

def renderLine (r : ExamRow) : String := "- " ++ joinSep " | " (renderParts r)

/-- fetchExamsSummary: one line per exam row, newline-joined. -/
def fetchExamsSummary (db : DB) (pidVal : Json) : String :=
  joinSep "\n" ((examRows db pidVal).map renderLine)

-- ------------------------------------------------------------------
-- Upload filename sanitizer  (multer diskStorage, src/index.js:202-210)
-- ------------------------------------------------------------------

/-- The character class the replacement regex keeps: word characters,
dots, hyphens. -/
def isSafeChar (c : Char) : Bool :=
  c.isAlpha || c.isDigit || c == '_' || c == '.' || c == '-'

/-- Left-to-right state machine for the global replacement of every
maximal run of excluded characters by one underscore; the flag records
whether the previous character was part of a run already replaced. -/
def sanAux : Bool → List Char → List Char
  | _, [] => []
  | inRun, c :: cs =>
    if isSafeChar c then c :: sanAux false cs
    else if inRun then sanAux true cs
    else '_' :: sanAux true cs

/-- file.originalname.replace of the excluded-run pattern with an
underscore. -/
def sanitizeName (s : String) : String := ⟨sanAux false s.data⟩

/-- The generated stored filename: Date.now() timestamp, two underscores,
sanitized original name. -/
def uploadedFilename (ts : Nat) (originalname : String) : String :=
  natStr ts ++ "__" ++ sanitizeName originalname

/-- The uploaded file as multer presents it; ts is the Date.now() value at
naming time. -/
structure UpFile where
  originalname : String
  ts : Nat

-- ------------------------------------------------------------------
-- Exam creation routes  (src/index.js:409-437)
-- ------------------------------------------------------------------

/-- Request body of the two exam-creation routes. -/
structure ExBody where
  prontuario_id : Option Json
  tipo : Option Json
  observacoes : Option Json
  resultado_texto : Option Json
  data_anexo : Option Json
  data_resultado : Option Json

/-- const dataFinal = data_anexo || data_resultado || empty string. -/
def dataFinal (b : ExBody) : Json :=
  jsOr (b.data_anexo.getD (Json.str ""))
    (jsOr (b.data_resultado.getD (Json.str "")) (Json.str ""))

/-- The bound value dataFinal || null. -/
def dataFinalBind (b : ExBody) : Json := jsOr (dataFinal b) Json.null

/-- The INSERT INTO exames statement: fails with a 500 on a foreign-key
violation (PRAGMA foreign_keys = ON), otherwise appends the row and
reports lastID. -/
def insertExam (db : DB) (pidVal tipo obs arq res data : Json) (now : Nat) :
    DB × CrudOut :=
  match jsonToNat pidVal with
  | some n =>
    if db.prontuarios.any (fun r => r.id == n) then
      (⟨db.prontuarios, db.nextPid,
        db.exames ++ [⟨db.nextEid, n, tipo, obs, arq, res, data, now⟩],
        db.nextEid + 1⟩, ⟨201, some db.nextEid⟩)
    else (db, ⟨500, none⟩)
  | none => (db, ⟨500, none⟩)

/-- POST /exames/upload (src/index.js:409-422). -/
def examesUpload (db : DB) (b : ExBody) (file : Option UpFile) (now : Nat) :
    DB × CrudOut :=
  if !truthyOpt b.prontuario_id then (db, ⟨400, none⟩)
  else
    match file with
    | none => (db, ⟨400, none⟩)
    | some f =>
      insertExam db (b.prontuario_id.getD .null) (b.tipo.getD (.str ""))
        (b.observacoes.getD (.str ""))
        (.str ("/uploads/" ++ uploadedFilename f.ts f.originalname))
        .null (dataFinalBind b) now

/-- POST /exames/texto (src/index.js:425-437).  A non-string
resultado_texto makes the synchronous handler throw, which the express
default error handler reports as a 500. -/
def examesTexto (db : DB) (b : ExBody) (now : Nat) : DB × CrudOut :=
  if !truthyOpt b.prontuario_id then (db, ⟨400, none⟩)
  else
    match jsTrimVal (b.resultado_texto.getD (.str "")) with
    | .error _ => (db, ⟨500, none⟩)
    | .ok t =>
      if t == "" then (db, ⟨400, none⟩)
      else
        insertExam db (b.prontuario_id.getD .null) (b.tipo.getD (.str ""))
          (b.observacoes.getD (.str "")) .null
          (b.resultado_texto.getD (.str "")) (dataFinalBind b) now

-- ------------------------------------------------------------------
-- POST /ai-diagnostico  (src/index.js:268-345)
-- ------------------------------------------------------------------

/-- Request body of POST /ai-diagnostico. -/
structure AiBody where
  sintomas : Option Json
  anamnese : Option Json
  prontuario_id : Option Json
  exames_resumo : Option Json

/-- Outcome of the AI route: status, the sugestao payload of a 200, the
error detail of a 400/502, and whether the oracle round-trip was
reached. -/
structure AiOut where
  status : Nat
  sugestao : Option Json
  error : Option String
  oracleCalled : Bool

/-- The fixed text of the triage prompt up to the symptoms
interpolation. -/
def promptHead : String :=
  "\nVocê atua como médico regulador virtual de triagem clínica, seguindo rigorosamente protocolos da OMS e diretrizes do Sistema Único de Saúde (SUS). Responda em português do Brasil.\n" ++
  "Não forneça diagnóstico definitivo nem prescrição; formule apenas hipóteses diagnósticas iniciais e condutas orientativas.\n" ++
  "Utilize exclusivamente os dados fornecidos; não invente informações. Quando houver lacunas, declare a incerteza explicitamente.\n" ++
  "Aplique raciocínio clínico estruturado, terminologia técnica e estratificação de risco baseada em evidências internacionais e nacionais vigentes.\n\n" ++
  "Regras de gravidade (selecione apenas UMA):\n" ++
  "- \"alta\": falta de ar moderada/grave, SpO2 < 95%, dor/pressão torácica importante, confusão/sonolência, síncope, rigidez de nuca, hemoptise, sinais de sepse, desidratação grave, piora rápida.\n" ++
  "- \"moderada\": febre ≥ 38,5 °C por ≥ 3 dias, dor torácica leve-moderada, vômitos persistentes, diarreia moderada, dor intensa localizada, piora sem sinais de alarme.\n" ++
  "- \"baixa\": sintomas leves autolimitados e sem alarme.\n" ++
  "- \"indefinida\": dados insuficientes para classificação.\n\n" ++
  "Sinais de alarme possíveis:\n" ++
  "[\"falta de ar\",\"SpO2<95%\",\"dor/pressão no peito\",\"confusão/sonolência\",\"rigidez de nuca\",\"hemoptise\",\"desidratação grave\",\"oligúria\",\"cianose\",\"sinais de sepse\",\"piora rápida\",\"síncope\"]\n\n" ++
  "Formato OBRIGATÓRIO (JSON válido, sem texto fora do JSON):\n" ++
  "\x7b\n  \"hipoteses\": [\"hipótese 1\", \"hipótese 2\", \"hipótese 3\"],\n  \"gravidade\": \"baixa|moderada|alta|indefinida\",\n  \"sinais_alarme\": [\"zero ou mais itens da lista acima\"],\n  \"justificativa\": \"até 50 palavras, objetiva\",\n  \"recomendacao\": \"até 160 caracteres\",\n  \"exames_sugeridos\": [\"opcional: até 3\"],\n  \"confianca\": 0.0\n\x7d\n\n" ++
  "DADOS DO PACIENTE\nSINTOMAS:\n"

/-- The prompt template of src/index.js:293-328 with its interpolations,
trimmed as the template literal is. -/
def buildPrompt (sintomas anamnese : Json) (bloco : String) : String :=
  jsTrim (promptHead ++
    jsDisplay (jsOr sintomas (Json.str "(não informado)")) ++
    "\n\nANAMNESE:\n" ++
    jsDisplay (jsOr anamnese (Json.str "(não informada)")) ++
    "\n\nRESULTADOS/RESUMO DE EXAMES:\n" ++
    (if bloco == "" then "(sem exames disponíveis)" else bloco) ++
    "\n    ")

/-- The exames block assembly (src/index.js:281-291): a truthy
exames_resumo with non-empty trim wins; otherwise a truthy prontuario_id
triggers the summarizer (whose failures are swallowed); otherwise the
block is empty.  The error branch is a thrown TypeError from calling trim
on a truthy non-string exames_resumo. -/
def examesBloco (db : DB) (b : AiBody) : Except String String :=
  let er := b.exames_resumo.getD (Json.str "")
  let cond : Except String Bool :=
    if er.truthy then
      match jsTrimVal er with
      | .ok t => .ok (!(t == ""))
      | .error e => .error e
    else .ok false
  match cond with
  | .error e => .error e
  | .ok true =>
    match er with
    | .str s => .ok (jsTrim s)
    | _ => .ok ""
  | .ok false =>
    if (b.prontuario_id.getD Json.null).truthy then
      .ok (fetchExamsSummary db (b.prontuario_id.getD Json.null))
    else .ok ""

/-- The part of the route after input validation: build the exames block
and the prompt, call the oracle (modelled as a function from the sent
prompt to the askOllama outcome), interpret the response.  Any thrown
error is the route-level catch answering 502. -/
def aiAfterValidation (db : DB) (b : AiBody)
    (oracle : String → Except String String) : AiOut :=
  match examesBloco db b with
  | .error e => ⟨502, none, some e, false⟩
  | .ok bloco =>
    match oracle (buildPrompt (b.sintomas.getD (.str ""))
      (b.anamnese.getD (.str "")) bloco) with
    | .error e => ⟨502, none, some e, true⟩
    | .ok raw =>
      match interpretResposta raw with
      | .ok v => ⟨200, some v, none, true⟩
      | .error e => ⟨502, none, some e, true⟩

/-- POST /ai-diagnostico: the input validation of src/index.js:277-278
(with the short-circuit of the JS conjunction), then the oracle
round-trip. -/
def aiDiagnostico (db : DB) (b : AiBody)
    (oracle : String → Except String String) : AiOut :=
  match jsTrimVal (b.sintomas.getD (.str "")) with
  | .error e => ⟨502, none, some e, false⟩
  | .ok tS =>
    if tS == "" then
      match jsTrimVal (b.anamnese.getD (.str "")) with
      | .error e => ⟨502, none, some e, false⟩
      | .ok tA =>
        if tA == "" then
          ⟨400, none, some "Informe ao menos sintomas ou anamnese.", false⟩
        else aiAfterValidation db b oracle
    else aiAfterValidation db b oracle


-- ------------------------------------------------------------------
-- Sequences of record creations (for the id/round-trip properties)
-- ------------------------------------------------------------------

/-- Run a sequence of POST /prontuario requests, collecting the ids
returned by the successful ones in request order. -/
def createAll (db : DB) : List ProntBody → DB × List Nat
  | [] => (db, [])
  | b :: bs =>
    let step := createProntuario db b
    let rest := createAll step.1 bs
    match step.2.id with
    | some i => (rest.1, i :: rest.2)
    | none => rest

/-- Store invariant: every stored record id is below the AUTOINCREMENT
counter and ids are pairwise distinct. -/
def DBInv (db : DB) : Prop :=
  (∀ r ∈ db.prontuarios, r.id < db.nextPid) ∧
    (db.prontuarios.map PRow.id).Nodup


end MedVibe


namespace MedVibe

-- ------------------------------------------------------------------
-- Round trip: JSON.parse of JSON.stringify of an array of strings
-- ------------------------------------------------------------------

theorem hexVal_hexDigit : ∀ n < 16, hexVal (hexDigit n) = some n := by decide

theorem escChar_length_pos (c : Char) : 1 ≤ (escChar c).length := by
  unfold escChar
  split_ifs <;> simp

theorem escStr_length (cs : List Char) : cs.length ≤ (escStr cs).length := by
  induction cs with
  | nil => simp [escStr]
  | cons c cs ih =>
    simp only [escStr, List.length_cons, List.length_append]
    have := escChar_length_pos c
    omega

theorem parseStrBodyF_unicode (f : Nat) (t : Nat) (h : t < 32) (tail : List Char) :
    parseStrBodyF (f+1)
      ('\\' :: 'u' :: '0' :: '0' :: hexDigit (t / 16) :: hexDigit (t % 16) :: tail) =
    match parseStrBodyF f tail with
    | some (s, r) => some (Char.ofNat t :: s, r)
    | none => none := by
  have hd : t / 16 < 16 := by omega
  have hm : t % 16 < 16 := by omega
  simp only [parseStrBodyF]
  simp only [reduceIte, reduceCtorEq]
  rw [(by decide : hexVal '0' = some 0), hexVal_hexDigit _ hd, hexVal_hexDigit _ hm]
  simp only []
  have hE : 0 * 4096 + 0 * 256 + t / 16 * 16 + t % 16 = t := by omega
  rw [hE]
  rw [if_neg (by omega : ¬(0xd800 ≤ t ∧ t ≤ 0xdbff)),
    if_neg (by omega : ¬(0xdc00 ≤ t ∧ t ≤ 0xdfff))]
  rw [if_neg (by decide : ¬('\\' : Char) = '"'),
    if_neg (by decide : ¬('u' : Char) = '"'),
    if_neg (by decide : ¬('u' : Char) = '\\'),
    if_neg (by decide : ¬('u' : Char) = '/'),
    if_neg (by decide : ¬('u' : Char) = 'b'),
    if_neg (by decide : ¬('u' : Char) = 'f'),
    if_neg (by decide : ¬('u' : Char) = 'n'),
    if_neg (by decide : ¬('u' : Char) = 'r'),
    if_neg (by decide : ¬('u' : Char) = 't')]

theorem parseStrBodyF_escStr (cs : List Char) : ∀ (rest : List Char) (f : Nat),
    cs.length + 1 ≤ f →
    parseStrBodyF f (escStr cs ++ '"' :: rest) = some (cs, rest) := by
  induction cs with
  | nil =>
    intro rest f hf
    cases f with
    | zero => omega
    | succ f => simp [escStr, parseStrBodyF]
  | cons c cs ih =>
    intro rest f hf
    cases f with
    | zero => omega
    | succ f =>
    have hf' : cs.length + 1 ≤ f := by
      simp only [List.length_cons] at hf
      omega
    have ihr := ih rest f hf'
    by_cases h1 : c = '"'
    · subst h1; simp [escStr, escChar, parseStrBodyF, ihr]
    · by_cases h2 : c = '\\'
      · subst h2; simp [escStr, escChar, parseStrBodyF, ihr]
      · by_cases h3 : c = '\x08'
        · subst h3; simp [escStr, escChar, parseStrBodyF, ihr]
        · by_cases h4 : c = '\x09'
          · subst h4; simp [escStr, escChar, parseStrBodyF, ihr]
          · by_cases h5 : c = '\x0a'
            · subst h5; simp [escStr, escChar, parseStrBodyF, ihr]
            · by_cases h6 : c = '\x0c'
              · subst h6; simp [escStr, escChar, parseStrBodyF, ihr]
              · by_cases h7 : c = '\x0d'
                · subst h7; simp [escStr, escChar, parseStrBodyF, ihr]
                · by_cases h8 : c.toNat < 0x20
                  · have hesc : escChar c =
                        ['\\', 'u', '0', '0', hexDigit (c.toNat / 16),
                          hexDigit (c.toNat % 16)] := by
                      unfold escChar
                      simp [h1, h2, h3, h4, h5, h6, h7, h8]
                    have hu := parseStrBodyF_unicode f c.toNat h8
                      (escStr cs ++ '"' :: rest)
                    simp only [escStr, hesc, List.cons_append, List.nil_append]
                    rw [hu, ihr, Char.ofNat_toNat]
                  · have hesc : escChar c = [c] := by
                      unfold escChar
                      simp [h1, h2, h3, h4, h5, h6, h7, h8]
                    simp [escStr, hesc, parseStrBodyF, h1, h2, h8, ihr]

theorem parseStrBody_quote (s : String) (rest : List Char) :
    parseStrBody (escStr s.data ++ '"' :: rest) = some (s.data, rest) := by
  unfold parseStrBody
  apply parseStrBodyF_escStr
  have := escStr_length s.data
  simp only [List.length_append, List.length_cons]
  omega

end MedVibe

namespace MedVibe

/-- Serialized form of the elements of an array of strings. -/
def elemsChars : List String → List Char
  | [] => []
  | [s] => quoteChars s
  | s :: t :: ts => quoteChars s ++ ',' :: elemsChars (t :: ts)

theorem serL_strings (l : List String) :
    serL (l.map Json.str) = elemsChars l := by
  match l with
  | [] => rfl
  | [s] => rfl
  | s :: t :: ts =>
    have ih := serL_strings (t :: ts)
    simp only [List.map_cons] at *
    rw [serL, elemsChars, ← ih]
    rfl

theorem quoteChars_length (s : String) : 2 ≤ (quoteChars s).length := by
  simp [quoteChars]

theorem elemsChars_length (l : List String) : l.length ≤ (elemsChars l).length := by
  match l with
  | [] => simp [elemsChars]
  | [s] =>
    have := quoteChars_length s
    simp [elemsChars]
    omega
  | s :: t :: ts =>
    have ih := elemsChars_length (t :: ts)
    have hq := quoteChars_length s
    rw [elemsChars]
    simp only [List.length_append, List.length_cons] at *
    omega

theorem skipWs_cons (c : Char) (t : List Char) (h : isWsJson c = false) :
    skipWs (c :: t) = c :: t := by
  simp [skipWs, List.dropWhile_cons, h]

theorem quoteChars_cons_append (s : String) (X : List Char) :
    quoteChars s ++ X = '"' :: (escStr s.data ++ '"' :: X) := by
  simp [quoteChars]

theorem parseValue_quote (n : Nat) (h : 1 ≤ n) (s : String) (X : List Char) :
    parseValue n (quoteChars s ++ X) = some (.str s, X) := by
  cases n with
  | zero => omega
  | succ n =>
    rw [quoteChars_cons_append]
    rw [parseValue]
    rw [skipWs_cons _ _ (by decide)]
    simp [parseStrBody_quote]

theorem parseElemsF_elems (l : List String) : ∀ (rest : List Char) (n f : Nat),
    l ≠ [] → 1 ≤ n → l.length + 1 ≤ f →
    parseElemsF (parseValue n) f (elemsChars l ++ ']' :: rest) =
      some (l.map Json.str, rest) := by
  match l with
  | [] => intro rest n f hne; exact absurd rfl hne
  | [s] =>
    intro rest n f _ hn hf
    cases f with
    | zero => omega
    | succ f =>
      rw [elemsChars]
      rw [parseElemsF]
      rw [parseValue_quote n hn]
      have hsw : skipWs (']' :: rest) = ']' :: rest := skipWs_cons _ _ (by decide)
      simp [hsw]
  | s :: t :: ts =>
    intro rest n f _ hn hf
    cases f with
    | zero => omega
    | succ f =>
      have hf2 : (t :: ts).length + 1 ≤ f := by
        simp only [List.length_cons] at hf ⊢
        omega
      have ih := parseElemsF_elems (t :: ts) rest n f (by simp) hn hf2
      rw [elemsChars]
      rw [List.append_assoc, List.cons_append]
      rw [parseElemsF]
      rw [parseValue_quote n hn]
      have hsw : skipWs (',' :: (elemsChars (t :: ts) ++ ']' :: rest)) =
          ',' :: (elemsChars (t :: ts) ++ ']' :: rest) := skipWs_cons _ _ (by decide)
      simp [hsw, ih]

end MedVibe

namespace MedVibe

theorem elemsChars_head (s : String) (tl : List String) :
    ∃ Y, elemsChars (s :: tl) = '"' :: Y := by
  cases tl with
  | nil => exact ⟨escStr s.data ++ ['"'], by simp [elemsChars, quoteChars]⟩
  | cons t ts =>
    exact ⟨escStr s.data ++ ['"'] ++ ',' :: elemsChars (t :: ts),
      by simp [elemsChars, quoteChars]⟩

theorem data_mk (L : List Char) : (⟨L⟩ : String).data = L := rfl

theorem length_mk (L : List Char) : (⟨L⟩ : String).length = L.length := rfl

theorem parseValue_arr (l : List String) (hne : l ≠ []) (n : Nat)
    (hn : l.length + 1 ≤ n) (rest : List Char) :
    parseValue (n + 1) ('[' :: (elemsChars l ++ ']' :: rest)) =
      some (.arr (l.map .str), rest) := by
  match l, hne with
  | s :: tl, _ =>
  have h1n : 1 ≤ n := by simp only [List.length_cons] at hn; omega
  rw [parseValue]
  rw [show skipWs ('[' :: (elemsChars (s :: tl) ++ ']' :: rest)) =
    '[' :: (elemsChars (s :: tl) ++ ']' :: rest) from skipWs_cons _ _ (by decide)]
  simp only [if_neg (by decide : ¬('[' : Char) = '"'), if_pos rfl]
  obtain ⟨Y, hY⟩ := elemsChars_head s tl
  have helems := parseElemsF_elems (s :: tl) rest n (n + 1) (by simp) h1n
    (by simp only [List.length_cons] at hn ⊢; omega)
  rw [hY] at helems ⊢
  have hsw : skipWs ('"' :: Y ++ ']' :: rest) = '"' :: Y ++ ']' :: rest :=
    skipWs_cons _ _ (by decide)
  simp only [List.cons_append] at hsw helems ⊢
  rw [hsw, helems]
  simp

/-- Round trip: parsing the stringified form of an array of strings gives
back exactly that array. -/
theorem jsonParse_stringify_arr (l : List String) :
    jsonParse (jsonStringify (Json.arr (l.map Json.str))) =
      some (Json.arr (l.map Json.str)) := by
  have hser : serV (Json.arr (l.map Json.str)) = '[' :: (elemsChars l ++ [']']) := by
    rw [serV, serL_strings]
  cases l with
  | nil => rfl
  | cons s tl =>
    unfold jsonStringify jsonParse
    rw [hser, data_mk, length_mk]
    have hlen : (s :: tl).length + 1 ≤ ('[' :: (elemsChars (s :: tl) ++ [']'])).length := by
      have h := elemsChars_length (s :: tl)
      simp only [List.length_cons, List.length_append, List.length_nil] at h ⊢
      omega
    rw [parseValue_arr (s :: tl) (by simp) _ hlen []]
    simp [skipWs]

end MedVibe


namespace MedVibe

-- ------------------------------------------------------------------
-- Lemmas about sequences of record creations (claim C5 support)
-- ------------------------------------------------------------------

/-- The row POST /prontuario inserts for a given new id. -/
def newRow (i : Nat) (b : ProntBody) : PRow :=
  ⟨i, b.nome.getD .null, b.cpf.getD .null, b.data_consulta.getD .null,
    b.diagnostico.getD .null, b.sintomas.getD (.str ""),
    b.anamnese.getD (.str ""), examesStr b⟩

/-- The rows a sequence of valid creations appends, ids counting up. -/
def newRows : Nat → List ProntBody → List PRow
  | _, [] => []
  | i, b :: bs => newRow i b :: newRows (i + 1) bs

theorem createProntuario_ok (db : DB) (b : ProntBody) (h : requiredOk b = true) :
    createProntuario db b =
      (⟨db.prontuarios ++ [newRow db.nextPid b], db.nextPid + 1, db.exames,
        db.nextEid⟩, ⟨201, some db.nextPid⟩) := by
  simp [createProntuario, h, newRow]

theorem createAll_ok (bs : List ProntBody) : ∀ (db : DB),
    (∀ b ∈ bs, requiredOk b = true) →
    createAll db bs =
      (⟨db.prontuarios ++ newRows db.nextPid bs, db.nextPid + bs.length,
        db.exames, db.nextEid⟩, List.range' db.nextPid bs.length) := by
  induction bs with
  | nil => intro db _; simp [createAll, newRows]
  | cons b bs ih =>
    intro db hall
    have hb : requiredOk b = true := hall b (by simp)
    have hbs : ∀ x ∈ bs, requiredOk x = true := fun x hx => hall x (by simp [hx])
    rw [createAll, createProntuario_ok db b hb]
    rw [ih ⟨db.prontuarios ++ [newRow db.nextPid b], db.nextPid + 1, db.exames,
      db.nextEid⟩ hbs]
    simp only [List.append_assoc, List.singleton_append, newRows,
      List.length_cons]
    rw [show db.nextPid + 1 + bs.length = db.nextPid + (bs.length + 1) from by omega,
      show List.range' db.nextPid (bs.length + 1) =
        db.nextPid :: List.range' (db.nextPid + 1) bs.length from rfl]

theorem newRows_map_id (bs : List ProntBody) : ∀ (i : Nat),
    (newRows i bs).map PRow.id = List.range' i bs.length := by
  induction bs with
  | nil => intro i; simp [newRows]
  | cons b bs ih => intro i; simp [newRows, newRow, List.range'_succ, ih]

theorem createAll_inv (db : DB) (bs : List ProntBody)
    (hinv : DBInv db) (hall : ∀ b ∈ bs, requiredOk b = true) :
    DBInv (createAll db bs).1 := by
  rw [createAll_ok bs db hall]
  obtain ⟨hlt, hnd⟩ := hinv
  constructor
  · intro r hr
    simp only [List.mem_append] at hr
    rcases hr with hr | hr
    · have := hlt r hr; simp; omega
    · have : r.id ∈ (newRows db.nextPid bs).map PRow.id := List.mem_map_of_mem _ hr
      rw [newRows_map_id] at this
      rw [List.mem_range'_1] at this
      simp
      omega
  · simp only [List.map_append, newRows_map_id]
    rw [List.nodup_append]
    refine ⟨hnd, List.nodup_range' _ _ _ (by omega), ?_⟩
    intro a ha hb
    have h1 : a < db.nextPid := by
      obtain ⟨r, hr, rfl⟩ := List.mem_map.mp ha
      exact hlt r hr
    rw [List.mem_range'_1] at hb
    omega

end MedVibe

namespace MedVibe

theorem listProntuarios_perm (db : DB) :
    (listProntuarios db).Perm db.prontuarios :=
  List.perm_insertionSort _ _

theorem listProntuarios_sorted (db : DB) :
    (listProntuarios db).Pairwise newestFirst :=
  List.sorted_insertionSort _ _

theorem getProntuarios_pairwise (db : DB)
    (hnd : (db.prontuarios.map PRow.id).Nodup) :
    (getProntuarios db).Pairwise (fun a b => b.id < a.id) := by
  unfold getProntuarios
  rw [List.pairwise_map]
  have hs := listProntuarios_sorted db
  have hperm := listProntuarios_perm db
  have hnd2 : ((listProntuarios db).map PRow.id).Nodup :=
    ((hperm.map PRow.id).nodup_iff).mpr hnd
  have hne : (listProntuarios db).Pairwise (fun a b => a.id ≠ b.id) :=
    List.pairwise_map.mp hnd2
  refine (hs.and hne).imp ?_
  intro a b h
  obtain ⟨h1, h2⟩ := h
  simp only [newestFirst] at h1
  dsimp only
  omega

theorem mem_getProntuarios (db : DB) (r : PRow) (hr : r ∈ db.prontuarios) :
    (⟨r.id, r.nome, r.cpf, r.data_consulta, r.diagnostico, r.sintomas,
      r.anamnese, decodeExames r.exames_solicitados⟩ : POut) ∈
      getProntuarios db := by
  unfold getProntuarios
  exact List.mem_map_of_mem _ ((listProntuarios_perm db).mem_iff.mpr hr)

theorem jsonStringify_arr_ne_empty (l : List Json) :
    jsonStringify (Json.arr l) ≠ "" := by
  intro h
  have h2 : (jsonStringify (Json.arr l)).data = [] := by rw [h]
  rw [jsonStringify, data_mk, serV] at h2
  simp at h2

theorem decodeExames_stringify (l : List String) :
    decodeExames (jsonStringify (Json.arr (l.map Json.str))) =
      Json.arr (l.map Json.str) := by
  unfold decodeExames
  rw [show (jsonStringify (Json.arr (l.map Json.str)) == "") = false from
    beq_eq_false_iff_ne.mpr (jsonStringify_arr_ne_empty _)]
  simp only [Bool.false_eq_true, if_false]
  rw [jsonParse_stringify_arr]

theorem newRow_mem_newRows (bs : List ProntBody) : ∀ (p i : Nat)
    (h : i < bs.length), newRow (p + i) (bs.get ⟨i, h⟩) ∈ newRows p bs := by
  induction bs with
  | nil => intro p i h; simp at h
  | cons b bs ih =>
    intro p i h
    cases i with
    | zero => simp [newRows]
    | succ i =>
      have hi : i < bs.length := by simp at h; omega
      have hmem := ih (p + 1) i hi
      have heq : p + (i + 1) = p + 1 + i := by omega
      simp only [newRows, List.get_cons_succ, heq, List.mem_cons]
      exact Or.inr hmem

/-- C5: for every sequence of valid POST /prontuario creations, the
returned ids strictly increase in insertion order, a subsequent GET
/prontuarios lists the records newest-first (strictly descending ids),
and each created record appears in the listing with exames_solicitados
decoded back to exactly the list of strings supplied at creation. -/
theorem claim_C5 (db : DB) (bs : List ProntBody) (hinv : DBInv db)
    (hval : ∀ b ∈ bs, requiredOk b = true) :
    List.Pairwise (· < ·) (createAll db bs).2 ∧
    (createAll db bs).2.length = bs.length ∧
    List.Pairwise (fun a b : POut => b.id < a.id)
      (getProntuarios (createAll db bs).1) ∧
    (∀ (i : Nat) (h : i < bs.length) (h2 : i < (createAll db bs).2.length)
      (l : List String),
      (bs.get ⟨i, h⟩).exames_solicitados = some (Json.arr (l.map Json.str)) →
      ∃ r ∈ getProntuarios (createAll db bs).1,
        r.id = (createAll db bs).2.get ⟨i, h2⟩ ∧
        r.exames_solicitados = Json.arr (l.map Json.str)) := by
  have hnd := (createAll_inv db bs hinv hval).2
  rw [createAll_ok bs db hval] at hnd ⊢
  refine ⟨by simpa using List.pairwise_lt_range' db.nextPid bs.length,
    by simp, getProntuarios_pairwise _ hnd, ?_⟩
  intro i h h2 l hex
  have hexs : examesStr (bs.get ⟨i, h⟩) =
      jsonStringify (Json.arr (l.map Json.str)) := by
    unfold examesStr
    rw [hex]
    rfl
  have hmem : newRow (db.nextPid + i) (bs.get ⟨i, h⟩) ∈
      (⟨db.prontuarios ++ newRows db.nextPid bs, db.nextPid + bs.length,
        db.exames, db.nextEid⟩ : DB).prontuarios := by
    simp only [List.mem_append]
    exact Or.inr (newRow_mem_newRows bs db.nextPid i h)
  refine ⟨⟨db.nextPid + i, (newRow (db.nextPid + i) (bs.get ⟨i, h⟩)).nome,
    _, _, _, _, _, decodeExames (examesStr (bs.get ⟨i, h⟩))⟩,
    mem_getProntuarios _ _ hmem, ?_, ?_⟩
  · simp [List.getElem_range']
  · simp only [hexs, decodeExames_stringify]

end MedVibe

namespace MedVibe

-- ------------------------------------------------------------------
-- Exam summarizer characterization (claim C4 support)
-- ------------------------------------------------------------------

/-- The five renderable attributes of an exam line, in the fixed source
order, each with its presence flag (JS truthiness of the column value). -/
def attrStrings (r : ExamRow) : List (Bool × String) :=
  [(r.tipo.truthy, "Tipo: " ++ jsDisplay r.tipo),
   (r.data_resultado.truthy, "Data de anexo: " ++ jsDisplay r.data_resultado),
   (r.resultado_texto.truthy, "Resultado textual: " ++ jsDisplay r.resultado_texto),
   (r.observacoes.truthy, "Obs: " ++ jsDisplay r.observacoes),
   (r.arquivo_path.truthy, "Arquivo: " ++ jsDisplay r.arquivo_path)]

/-- The parts array is exactly the present attributes in the fixed order,
followed by the interpret-the-file note when a file reference is present
and a textual result is not. -/
theorem renderParts_spec (r : ExamRow) :
    renderParts r = ((attrStrings r).filter Prod.fst).map Prod.snd ++
      (if r.arquivo_path.truthy && !r.resultado_texto.truthy
        then [noteSemLaudo] else []) := by
  unfold renderParts attrStrings
  by_cases h1 : r.tipo.truthy <;> by_cases h2 : r.data_resultado.truthy <;>
    by_cases h3 : r.resultado_texto.truthy <;>
    by_cases h4 : r.observacoes.truthy <;>
    by_cases h5 : r.arquivo_path.truthy <;>
    simp [h1, h2, h3, h4, h5]

theorem ne_note_of_append (p s : String)
    (h : ∃ c t, p.data = c :: t ∧ c ≠ 'S') : p ++ s ≠ noteSemLaudo := by
  obtain ⟨c, t, hp, hc⟩ := h
  intro he
  have hd := congrArg String.data he
  rw [String.data_append, hp] at hd
  have hnote : noteSemLaudo.data =
      'S' :: "em laudo textual: interpretar arquivo anexado.".data := rfl
  rw [hnote] at hd
  simp at hd
  exact hc hd.1

theorem note_mem_renderParts (r : ExamRow) :
    noteSemLaudo ∈ renderParts r ↔
      (r.arquivo_path.truthy = true ∧ r.resultado_texto.truthy = false) := by
  have n1 := ne_note_of_append "Tipo: " (jsDisplay r.tipo) ⟨'T', _, rfl, by decide⟩
  have n2 := ne_note_of_append "Data de anexo: " (jsDisplay r.data_resultado)
    ⟨'D', _, rfl, by decide⟩
  have n3 := ne_note_of_append "Resultado textual: " (jsDisplay r.resultado_texto)
    ⟨'R', _, rfl, by decide⟩
  have n4 := ne_note_of_append "Obs: " (jsDisplay r.observacoes)
    ⟨'O', _, rfl, by decide⟩
  have n5 := ne_note_of_append "Arquivo: " (jsDisplay r.arquivo_path)
    ⟨'A', _, rfl, by decide⟩
  unfold renderParts
  by_cases h1 : r.tipo.truthy <;> by_cases h2 : r.data_resultado.truthy <;>
    by_cases h3 : r.resultado_texto.truthy <;>
    by_cases h4 : r.observacoes.truthy <;>
    by_cases h5 : r.arquivo_path.truthy <;>
    simp [h1, h2, h3, h4, h5, n1, n2, n3, n4, n5, Ne.symm n1, Ne.symm n2,
      Ne.symm n3, Ne.symm n4, Ne.symm n5]

/-- C4: for every record id, the exam summary is one line per stored exam
of that record (a permutation of the matching rows), ordered
most-recent-creation-first; the summary is the newline-join of the
rendered lines (so zero exams give the empty string); each line joins
with the pipe separator exactly the present attributes in the fixed order
type, attachment date, textual result, observations, file reference; and
a line carries the interpret-the-attached-file note exactly when the exam
has a truthy file reference and no truthy textual result. -/
theorem claim_C4 (db : DB) (pidVal : Json) (n : Nat)
    (hpid : jsonToNat pidVal = some n) :
    (examRows db pidVal).Perm
      (db.exames.filter (fun e => e.prontuario_id == n)) ∧
    (examRows db pidVal).Pairwise recentFirst ∧
    fetchExamsSummary db pidVal =
      joinSep "\n" ((examRows db pidVal).map renderLine) ∧
    (db.exames.filter (fun e => e.prontuario_id == n) = [] →
      fetchExamsSummary db pidVal = "") ∧
    (∀ r : ExamRow,
      renderLine r = "- " ++ joinSep " | " (renderParts r) ∧
      renderParts r = ((attrStrings r).filter Prod.fst).map Prod.snd ++
        (if r.arquivo_path.truthy && !r.resultado_texto.truthy
          then [noteSemLaudo] else []) ∧
      (noteSemLaudo ∈ renderParts r ↔
        (r.arquivo_path.truthy = true ∧ r.resultado_texto.truthy = false))) := by
  have hrows : examRows db pidVal = List.insertionSort recentFirst
      (db.exames.filter (fun e => e.prontuario_id == n)) := by
    unfold examRows
    rw [hpid]
  refine ⟨?_, ?_, rfl, ?_, ?_⟩
  · rw [hrows]; exact List.perm_insertionSort _ _
  · rw [hrows]; exact List.sorted_insertionSort _ _
  · intro hempty
    unfold fetchExamsSummary
    rw [hrows, hempty]
    rfl
  · intro r
    exact ⟨rfl, renderParts_spec r, note_mem_renderParts r⟩

end MedVibe

namespace MedVibe

-- ------------------------------------------------------------------
-- Upload filename sanitizer (claim C9 support)
-- ------------------------------------------------------------------

/-- Run-based reformulation of the replacement: every maximal run of
characters outside the safe class is replaced by a single underscore. -/
def sanSpecRec : List Char → List Char
  | [] => []
  | c :: cs =>
    if isSafeChar c then c :: sanSpecRec cs
    else '_' :: sanSpecRec (cs.dropWhile (fun d => !isSafeChar d))
termination_by l => l.length
decreasing_by
  · simp
  · have h : (cs.dropWhile (fun d => !isSafeChar d)).length ≤ cs.length :=
      (List.dropWhile_sublist _).length_le
    simp
    omega

theorem sanAux_true_dropWhile (cs : List Char) :
    sanAux true cs = sanAux false (cs.dropWhile (fun d => !isSafeChar d)) := by
  induction cs with
  | nil => rfl
  | cons c cs ih =>
    by_cases h : isSafeChar c
    · simp [sanAux, h, List.dropWhile]
    · simp [sanAux, h, List.dropWhile, ih]

/-- The state machine of the source agrees with the run-based
reformulation. -/
theorem sanAux_eq_sanSpecRec (cs : List Char) :
    sanAux false cs = sanSpecRec cs := by
  induction cs using sanSpecRec.induct with
  | case1 => simp [sanAux, sanSpecRec]
  | case2 c cs h ih => simp [sanAux, sanSpecRec, h, ih]
  | case3 c cs h ih => simp [sanAux, sanSpecRec, h, sanAux_true_dropWhile, ih]

theorem sanAux_all_safe (cs : List Char) : ∀ (flag : Bool),
    ∀ c ∈ sanAux flag cs, isSafeChar c = true := by
  induction cs with
  | nil => intro flag c hc; simp [sanAux] at hc
  | cons a cs ih =>
    intro flag c hc
    by_cases h : isSafeChar a
    · rw [sanAux, if_pos h] at hc
      rcases List.mem_cons.mp hc with rfl | hc
      · exact h
      · exact ih false c hc
    · rw [sanAux, if_neg h] at hc
      cases flag with
      | true => exact ih true c hc
      | false =>
        rcases List.mem_cons.mp (by simpa using hc) with rfl | hc2
        · decide
        · exact ih true c hc2

theorem digitChar_isDigit (n : Nat) : (digitChar n).isDigit = true := by
  unfold digitChar
  split <;> decide

theorem digitsF_all_digit (f : Nat) : ∀ (n : Nat), ∀ c ∈ digitsF f n,
    c.isDigit = true := by
  induction f with
  | zero => intro n c hc; simp [digitsF] at hc
  | succ f ih =>
    intro n c hc
    rw [digitsF] at hc
    by_cases h : n < 10
    · rw [if_pos h] at hc
      rcases List.mem_singleton.mp hc with rfl
      exact digitChar_isDigit n
    · rw [if_neg h] at hc
      rcases List.mem_append.mp hc with hc | hc
      · exact ih (n / 10) c hc
      · rcases List.mem_singleton.mp hc with rfl
        exact digitChar_isDigit (n % 10)

theorem isSafeChar_of_digit (c : Char) (h : c.isDigit = true) :
    isSafeChar c = true := by
  simp [isSafeChar, h]

theorem uploadedFilename_safe (ts : Nat) (name : String) :
    ∀ c ∈ (uploadedFilename ts name).data, isSafeChar c = true := by
  intro c hc
  unfold uploadedFilename natStr sanitizeName at hc
  rw [String.data_append, String.data_append] at hc
  rcases List.mem_append.mp hc with hc | hc
  · rcases List.mem_append.mp hc with hc | hc
    · exact isSafeChar_of_digit c (digitsF_all_digit _ _ c hc)
    · have h2 : c ∈ ['_', '_'] := hc
      rcases List.mem_cons.mp h2 with rfl | h3
      · decide
      · rcases List.mem_singleton.mp h3 with rfl
        decide
  · exact sanAux_all_safe name.data false c hc

end MedVibe

namespace MedVibe

-- ------------------------------------------------------------------
-- Small handler lemmas
-- ------------------------------------------------------------------

theorem jsTrimVal_nonstr (v : Json) (h : v.isStr = false) :
    jsTrimVal v = .error "TypeError: trim is not a function" := by
  cases v <;> simp [Json.isStr] at h ⊢ <;> rfl

theorem examesBloco_ok_of_resumo_none (db : DB) (b : AiBody)
    (her : b.exames_resumo = none) :
    ∃ bloco, examesBloco db b = .ok bloco := by
  by_cases h : (b.prontuario_id.getD Json.null).truthy
  · exact ⟨fetchExamsSummary db (b.prontuario_id.getD Json.null),
      by simp [examesBloco, her, h, show (Json.str "").truthy = false from rfl]⟩
  · exact ⟨"", by simp [examesBloco, her, h,
      show (Json.str "").truthy = false from rfl]⟩

theorem aiAfterValidation_called (db : DB) (b : AiBody)
    (oracle : String → Except String String) (bloco : String)
    (hb : examesBloco db b = .ok bloco) :
    (aiAfterValidation db b oracle).oracleCalled = true := by
  unfold aiAfterValidation
  rw [hb]
  cases ho : oracle (buildPrompt (b.sintomas.getD (.str ""))
      (b.anamnese.getD (.str "")) bloco) with
  | error e => simp [ho]
  | ok raw =>
    cases hi : interpretResposta raw <;> simp [ho, hi]

-- ------------------------------------------------------------------
-- Claim C3
-- ------------------------------------------------------------------

/-- Claim C3: whenever both sintomas and anamnese are absent or
whitespace-only strings (equivalently, the JS trim of their defaulted
values succeeds and is empty), POST /ai-diagnostico answers 400 with an
error message and the oracle is never invoked, whatever the oracle would
have answered. -/
theorem claim_C3 (db : DB) (b : AiBody)
    (oracle : String → Except String String)
    (hs : jsTrimVal (b.sintomas.getD (.str "")) = .ok "")
    (ha : jsTrimVal (b.anamnese.getD (.str "")) = .ok "") :
    aiDiagnostico db b oracle =
      ⟨400, none, some "Informe ao menos sintomas ou anamnese.", false⟩ := by
  unfold aiDiagnostico
  rw [hs, ha]
  simp

-- ------------------------------------------------------------------
-- Claim C7
-- ------------------------------------------------------------------

/-- Claim C7: updating (with all required fields supplied) or deleting a
record id that is not in the store answers 404 and leaves both the
records and the exams unchanged. -/
theorem claim_C7 (db : DB) (id : Nat) (b : ProntBody)
    (hmiss : ∀ r ∈ db.prontuarios, r.id ≠ id)
    (hval : requiredOk b = true) :
    updateProntuario db id b = (db, ⟨404, none⟩) ∧
    deleteProntuario db id = (db, ⟨404, none⟩) := by
  have hany : db.prontuarios.any (fun r => r.id == id) = false := by
    rw [List.any_eq_false]
    intro r hr
    simpa using hmiss r hr
  constructor
  · unfold updateProntuario
    rw [hval, hany]
    simp
  · unfold deleteProntuario
    rw [hany]
    simp

-- ------------------------------------------------------------------
-- Claim C8
-- ------------------------------------------------------------------

/-- Claim C8: POST /exames/upload with no uploaded file answers 400 and
inserts nothing; POST /exames/texto whose resultado_texto is absent or
empty after trimming answers 400 and inserts nothing; and on either path
a missing (falsy) prontuario_id answers 400 and inserts nothing. -/
theorem claim_C8 (db : DB) (b : ExBody) (file : Option UpFile) (now : Nat) :
    examesUpload db b none now = (db, ⟨400, none⟩) ∧
    (jsTrimVal (b.resultado_texto.getD (.str "")) = .ok "" →
      examesTexto db b now = (db, ⟨400, none⟩)) ∧
    (truthyOpt b.prontuario_id = false →
      examesUpload db b file now = (db, ⟨400, none⟩) ∧
      examesTexto db b now = (db, ⟨400, none⟩)) := by
  refine ⟨?_, ?_, ?_⟩
  · unfold examesUpload
    by_cases h : truthyOpt b.prontuario_id <;> simp [h]
  · intro ht
    unfold examesTexto
    by_cases h : truthyOpt b.prontuario_id <;> simp [h, ht]
  · intro h
    constructor
    · unfold examesUpload; simp [h]
    · unfold examesTexto; simp [h]

-- ------------------------------------------------------------------
-- Claim C6
-- ------------------------------------------------------------------

theorem updateProntuario_hit (db : DB) (id : Nat) (b : ProntBody)
    (hval : requiredOk b = true)
    (hhit : db.prontuarios.any (fun r => r.id == id) = true) :
    updateProntuario db id b =
      (⟨db.prontuarios.map (fun r => if r.id == id then updatedRow r b else r),
        db.nextPid, db.exames, db.nextEid⟩, ⟨200, some id⟩) := by
  unfold updateProntuario
  rw [hval, hhit]
  simp

theorem examesStr_nonarray (b : ProntBody) (v : Json)
    (hv : b.exames_solicitados = some v) (hna : v.isArr = false) :
    examesStr b = "[]" := by
  unfold examesStr
  rw [hv]
  cases v <;> simp [Json.isArr] at hna ⊢

/-- Claim C6: a create or update whose exames_solicitados is present but
not an array succeeds (given the required fields; for update, an existing
id) and stores the serialized empty list for that field instead of
erroring. -/
theorem claim_C6 (db : DB) (b : ProntBody) (id : Nat) (v : Json)
    (hval : requiredOk b = true)
    (hv : b.exames_solicitados = some v) (hna : v.isArr = false) :
    examesStr b = "[]" ∧
    (createProntuario db b).2.status = 201 ∧
    (createProntuario db b).1.prontuarios =
      db.prontuarios ++ [newRow db.nextPid b] ∧
    (newRow db.nextPid b).exames_solicitados = "[]" ∧
    (db.prontuarios.any (fun r => r.id == id) = true →
      (updateProntuario db id b).2.status = 200 ∧
      ∀ r ∈ (updateProntuario db id b).1.prontuarios, r.id = id →
        r.exames_solicitados = "[]") := by
  have hes := examesStr_nonarray b v hv hna
  refine ⟨hes, ?_, ?_, ?_, ?_⟩
  · rw [createProntuario_ok db b hval]
  · rw [createProntuario_ok db b hval]
  · simp [newRow, hes]
  · intro hhit
    rw [updateProntuario_hit db id b hval hhit]
    refine ⟨rfl, ?_⟩
    intro r hr hid
    simp only [List.mem_map] at hr
    obtain ⟨r0, _, rfl⟩ := hr
    by_cases h : (r0.id == id) = true
    · simp [h, updatedRow, hes]
    · rw [if_neg h] at hid
      exact absurd (beq_iff_eq.mpr hid) h

-- ------------------------------------------------------------------
-- Claim C10 (amended) and its counterexample
-- ------------------------------------------------------------------

/-- Claim C10 (amended): a non-string sintomas value always makes the
validation throw, caught as a 502 before any oracle call; a non-string
anamnese does so only when sintomas trims to empty (the JS conjunction
short-circuits otherwise); when sintomas is a string with non-whitespace
content the request proceeds to the oracle regardless of the anamnese
value. -/
theorem claim_C10_amended (db : DB) (b : AiBody)
    (oracle : String → Except String String) :
    (∀ v, b.sintomas = some v → v.isStr = false →
      aiDiagnostico db b oracle =
        ⟨502, none, some "TypeError: trim is not a function", false⟩) ∧
    (jsTrimVal (b.sintomas.getD (.str "")) = .ok "" →
      ∀ v, b.anamnese = some v → v.isStr = false →
      aiDiagnostico db b oracle =
        ⟨502, none, some "TypeError: trim is not a function", false⟩) ∧
    (∀ s, b.sintomas = some (.str s) → jsTrim s ≠ "" → b.exames_resumo = none →
      (aiDiagnostico db b oracle).oracleCalled = true) := by
  refine ⟨?_, ?_, ?_⟩
  · intro v hv hstr
    unfold aiDiagnostico
    rw [hv]
    simp only [Option.getD_some]
    rw [jsTrimVal_nonstr v hstr]
  · intro hs v hv hstr
    unfold aiDiagnostico
    rw [hs, hv]
    simp only [Option.getD_some]
    rw [jsTrimVal_nonstr v hstr]
    rfl
  · intro s hv hts her
    obtain ⟨bloco, hb⟩ := examesBloco_ok_of_resumo_none db b her
    unfold aiDiagnostico
    rw [hv]
    simp only [Option.getD_some, jsTrimVal]
    rw [show (jsTrim s == "") = false from beq_eq_false_iff_ne.mpr hts]
    simp only [Bool.false_eq_true, if_false]
    exact aiAfterValidation_called db b oracle bloco hb

/-- Claim C10 as stated is false: a request with the non-string anamnese
value 5 but a non-empty string sintomas does not throw (the validation
conjunction short-circuits) and the route answers 200, not 502. -/
theorem claim_C10_counterexample :
    (aiDiagnostico ⟨[], 1, [], 1⟩
      ⟨some (.str "febre"), some (.num "5"), none, none⟩
      (fun _ => .ok "\x7b\"a\":1\x7d")).status = 200 ∧
    (aiDiagnostico ⟨[], 1, [], 1⟩
      ⟨some (.str "febre"), some (.num "5"), none, none⟩
      (fun _ => .ok "\x7b\"a\":1\x7d")).status ≠ 502 := by
  exact ⟨rfl, by decide⟩

end MedVibe

namespace MedVibe

-- ------------------------------------------------------------------
-- Claim C1 (amended) and its counterexample
-- ------------------------------------------------------------------

/-- Claim C1 (amended): once the oracle call has succeeded (and the
request passed validation), the endpoint answers 200 exactly when the
response interpretation succeeds; the interpretation fails exactly when
strict parsing fails, the brace-delimited extraction finds a candidate,
and that candidate also fails to parse (the SyntaxError then escapes to
the route catch as a 502); and when strict parsing fails with no
brace-delimited candidate the interpreter returns the single-field texto
fallback object (the raw text, or a fixed placeholder for an empty raw
text) rather than failing. -/
theorem claim_C1_amended (db : DB) (b : AiBody) (raw : String) (s : String)
    (hs : b.sintomas = some (.str s)) (hts : jsTrim s ≠ "")
    (her : b.exames_resumo = none) :
    ((aiDiagnostico db b (fun _ => .ok raw)).status = 200 ↔
      (interpretResposta raw).isOk = true) ∧
    ((interpretResposta raw).isOk = false ↔
      (jsonParse raw = none ∧
        ∃ m, braceMatch raw = some m ∧ jsonParse m = none)) ∧
    (jsonParse raw = none → braceMatch raw = none →
      interpretResposta raw = .ok (fallbackSugestao raw)) := by
  refine ⟨?_, ?_, ?_⟩
  · obtain ⟨bloco, hb⟩ := examesBloco_ok_of_resumo_none db b her
    unfold aiDiagnostico
    rw [hs]
    simp only [Option.getD_some, jsTrimVal]
    rw [show (jsTrim s == "") = false from beq_eq_false_iff_ne.mpr hts]
    simp only [Bool.false_eq_true, if_false]
    unfold aiAfterValidation
    rw [hb]
    cases hi : interpretResposta raw with
    | ok v => simp [hi, Except.isOk, Except.toBool]
    | error e => simp [hi, Except.isOk, Except.toBool]
  · unfold interpretResposta
    cases hp : jsonParse raw with
    | some v => simp [hp, Except.isOk, Except.toBool]
    | none =>
      cases hm : braceMatch raw with
      | none => simp [hm, Except.isOk, Except.toBool]
      | some m =>
        cases hq : jsonParse m with
        | some v => simp [hq, Except.isOk, Except.toBool]
        | none => simp [hq, Except.isOk, Except.toBool]
  · intro hp hm
    unfold interpretResposta
    rw [hp, hm]

/-- Claim C1 as stated is false: the successful oracle output consisting
of an opening brace, the letter x and a closing brace fails strict
parsing, is matched by the brace extraction, fails to parse again, and
the escaping SyntaxError makes the endpoint answer 502 — an error status
caused purely by oracle output formatting. -/
theorem claim_C1_counterexample :
    (aiDiagnostico ⟨[], 1, [], 1⟩ ⟨some (.str "febre"), none, none, none⟩
      (fun _ => .ok "\x7bx\x7d")).status = 502 ∧
    (interpretResposta "\x7bx\x7d").isOk = false :=
  ⟨rfl, rfl⟩

-- ------------------------------------------------------------------
-- Claim C2 (amended) and its counterexample
-- ------------------------------------------------------------------

/-- Claim C2 (amended): the strict-JSON input parses verbatim; the input
with text before and after the embedded object does NOT extract (the
pattern requires the closing brace to end the string) and falls back to
the single-field texto object; the same input without trailing text does
extract and parse the object; and plain non-JSON text falls back to the
texto object. -/
theorem claim_C2_amended :
    interpretResposta "\x7b\"hipoteses\":[\"a\"],\"gravidade\":\"baixa\"\x7d" =
      .ok (.obj [("hipoteses", .arr [.str "a"]), ("gravidade", .str "baixa")]) ∧
    interpretResposta "noise \x7b\"hipoteses\":[\"a\"]\x7d trailing" =
      .ok (.obj [("texto", .str "noise \x7b\"hipoteses\":[\"a\"]\x7d trailing")]) ∧
    interpretResposta "noise \x7b\"hipoteses\":[\"a\"]\x7d" =
      .ok (.obj [("hipoteses", .arr [.str "a"])]) ∧
    interpretResposta "not json at all" =
      .ok (.obj [("texto", .str "not json at all")]) :=
  ⟨rfl, rfl, rfl, rfl⟩

/-- Claim C2 as stated is false on its second example: with trailing text
after the embedded object the interpreter does not return the extracted
object (it returns the texto fallback instead). -/
theorem claim_C2_counterexample :
    interpretResposta "noise \x7b\"hipoteses\":[\"a\"]\x7d trailing" ≠
      .ok (.obj [("hipoteses", .arr [.str "a"])]) := by
  intro h
  rw [show interpretResposta "noise \x7b\"hipoteses\":[\"a\"]\x7d trailing" =
    .ok (.obj [("texto", .str "noise \x7b\"hipoteses\":[\"a\"]\x7d trailing")])
    from rfl] at h
  simp at h

-- ------------------------------------------------------------------
-- Claim C9
-- ------------------------------------------------------------------

/-- Claim C9: a successful upload stores exactly one exam row whose file
reference is the uploads path built from the timestamp, a double
underscore and the sanitized original name; the sanitizer replaces every
maximal run of characters outside word characters, dots and hyphens by a
single underscore (run-based reformulation proved equal); and every
character after the uploads-directory part is in the safe class, hence
neither a slash nor a backslash, so the stored reference cannot name a
path outside the uploads directory. -/
theorem claim_C9 (db : DB) (b : ExBody) (f : UpFile) (now n : Nat)
    (hpid : truthyOpt b.prontuario_id = true)
    (hn : jsonToNat (b.prontuario_id.getD .null) = some n)
    (hex : db.prontuarios.any (fun r => r.id == n) = true) :
    (examesUpload db b (some f) now).1.exames = db.exames ++
      [⟨db.nextEid, n, b.tipo.getD (.str ""), b.observacoes.getD (.str ""),
        .str ("/uploads/" ++ (natStr f.ts ++ "__" ++ sanitizeName f.originalname)),
        .null, dataFinalBind b, now⟩] ∧
    (examesUpload db b (some f) now).2.status = 201 ∧
    sanitizeName f.originalname = ⟨sanSpecRec f.originalname.data⟩ ∧
    (∀ c ∈ (natStr f.ts ++ "__" ++ sanitizeName f.originalname).data,
      isSafeChar c = true ∧ c ≠ '/' ∧ c ≠ '\\') := by
  have hup : examesUpload db b (some f) now =
      insertExam db (b.prontuario_id.getD .null) (b.tipo.getD (.str ""))
        (b.observacoes.getD (.str ""))
        (.str ("/uploads/" ++ uploadedFilename f.ts f.originalname))
        .null (dataFinalBind b) now := by
    unfold examesUpload
    rw [hpid]
    simp
  have hins : insertExam db (b.prontuario_id.getD .null) (b.tipo.getD (.str ""))
      (b.observacoes.getD (.str ""))
      (.str ("/uploads/" ++ uploadedFilename f.ts f.originalname))
      .null (dataFinalBind b) now =
      (⟨db.prontuarios, db.nextPid,
        db.exames ++ [⟨db.nextEid, n, b.tipo.getD (.str ""),
          b.observacoes.getD (.str ""),
          .str ("/uploads/" ++ uploadedFilename f.ts f.originalname),
          .null, dataFinalBind b, now⟩],
        db.nextEid + 1⟩, ⟨201, some db.nextEid⟩) := by
    unfold insertExam
    rw [hn]
    simp [hex]
  have hname : uploadedFilename f.ts f.originalname =
      natStr f.ts ++ "__" ++ sanitizeName f.originalname := rfl
  refine ⟨?_, ?_, ?_, ?_⟩
  · rw [hup, hins, hname]
  · rw [hup, hins]
  · unfold sanitizeName
    rw [sanAux_eq_sanSpecRec]
  · intro c hc
    have hsafe : isSafeChar c = true := by
      have : c ∈ (uploadedFilename f.ts f.originalname).data := hc
      exact uploadedFilename_safe f.ts f.originalname c this
    refine ⟨hsafe, ?_, ?_⟩
    · intro hcc
      rw [hcc] at hsafe
      exact absurd hsafe (by decide)
    · intro hcc
      rw [hcc] at hsafe
      exact absurd hsafe (by decide)

end MedVibe

namespace MedVibe

-- ------------------------------------------------------------------
-- Witnesses: each applies its claim theorem at a concrete input
-- ------------------------------------------------------------------

theorem claim_C1_amended_witness :
    ((aiDiagnostico ⟨[], 2, [], 3⟩ ⟨some (.str "tosse"), none, none, none⟩
        (fun _ => .ok "\x7b\"g\":true\x7d")).status = 200 ↔
      (interpretResposta "\x7b\"g\":true\x7d").isOk = true) ∧
    ((interpretResposta "\x7b\"g\":true\x7d").isOk = false ↔
      (jsonParse "\x7b\"g\":true\x7d" = none ∧
        ∃ m, braceMatch "\x7b\"g\":true\x7d" = some m ∧ jsonParse m = none)) ∧
    (jsonParse "\x7b\"g\":true\x7d" = none →
      braceMatch "\x7b\"g\":true\x7d" = none →
      interpretResposta "\x7b\"g\":true\x7d" =
        .ok (fallbackSugestao "\x7b\"g\":true\x7d")) :=
  claim_C1_amended ⟨[], 2, [], 3⟩ ⟨some (.str "tosse"), none, none, none⟩
    "\x7b\"g\":true\x7d" "tosse" rfl (by decide) rfl

theorem claim_C3_witness :
    aiDiagnostico ⟨[], 5, [], 5⟩ ⟨none, some (.str " \x09"), none, none⟩
      (fun _ => .error "oracle down") =
      ⟨400, none, some "Informe ao menos sintomas ou anamnese.", false⟩ :=
  claim_C3 ⟨[], 5, [], 5⟩ ⟨none, some (.str " \x09"), none, none⟩
    (fun _ => .error "oracle down") rfl rfl

theorem claim_C7_witness :
    updateProntuario
        ⟨[⟨1, .str "A", .str "1", .str "2024-01-01", .str "x", .str "", .str "",
          "[]"⟩], 2, [], 1⟩ 9
        ⟨some (.str "B"), some (.str "2"), some (.str "2024-01-02"),
          some (.str "y"), none, none, none⟩ =
      (⟨[⟨1, .str "A", .str "1", .str "2024-01-01", .str "x", .str "", .str "",
        "[]"⟩], 2, [], 1⟩, ⟨404, none⟩) ∧
    deleteProntuario
        ⟨[⟨1, .str "A", .str "1", .str "2024-01-01", .str "x", .str "", .str "",
          "[]"⟩], 2, [], 1⟩ 9 =
      (⟨[⟨1, .str "A", .str "1", .str "2024-01-01", .str "x", .str "", .str "",
        "[]"⟩], 2, [], 1⟩, ⟨404, none⟩) :=
  claim_C7 ⟨[⟨1, .str "A", .str "1", .str "2024-01-01", .str "x", .str "",
      .str "", "[]"⟩], 2, [], 1⟩ 9
    ⟨some (.str "B"), some (.str "2"), some (.str "2024-01-02"),
      some (.str "y"), none, none, none⟩
    (by decide) (by decide)

theorem claim_C8_witness :
    examesUpload ⟨[], 1, [], 1⟩
        ⟨some (.str "1"), none, none, none, none, none⟩ none 3 =
      (⟨[], 1, [], 1⟩, ⟨400, none⟩) ∧
    examesTexto ⟨[], 1, [], 1⟩
        ⟨some (.str "1"), none, none, some (.str "  "), none, none⟩ 3 =
      (⟨[], 1, [], 1⟩, ⟨400, none⟩) ∧
    examesUpload ⟨[], 1, [], 1⟩ ⟨none, none, none, none, none, none⟩
        (some ⟨"a.png", 4⟩) 3 =
      (⟨[], 1, [], 1⟩, ⟨400, none⟩) ∧
    examesTexto ⟨[], 1, [], 1⟩ ⟨none, none, none, some (.str "r"), none, none⟩ 3 =
      (⟨[], 1, [], 1⟩, ⟨400, none⟩) :=
  ⟨(claim_C8 ⟨[], 1, [], 1⟩ ⟨some (.str "1"), none, none, none, none, none⟩
      none 3).1,
   (claim_C8 ⟨[], 1, [], 1⟩
      ⟨some (.str "1"), none, none, some (.str "  "), none, none⟩ none 3).2.1 rfl,
   ((claim_C8 ⟨[], 1, [], 1⟩ ⟨none, none, none, none, none, none⟩
      (some ⟨"a.png", 4⟩) 3).2.2 rfl).1,
   ((claim_C8 ⟨[], 1, [], 1⟩ ⟨none, none, none, some (.str "r"), none, none⟩
      none 3).2.2 rfl).2⟩

theorem claim_C10_amended_witness :
    aiDiagnostico ⟨[], 1, [], 1⟩ ⟨some (.num "7"), none, none, none⟩
        (fun _ => .ok "\x7b\x7d") =
      ⟨502, none, some "TypeError: trim is not a function", false⟩ ∧
    aiDiagnostico ⟨[], 1, [], 1⟩ ⟨none, some (.bool true), none, none⟩
        (fun _ => .ok "\x7b\x7d") =
      ⟨502, none, some "TypeError: trim is not a function", false⟩ ∧
    (aiDiagnostico ⟨[], 1, [], 1⟩
        ⟨some (.str "dor"), some (.num "1"), none, none⟩
        (fun _ => .ok "\x7b\x7d")).oracleCalled = true :=
  ⟨(claim_C10_amended ⟨[], 1, [], 1⟩ ⟨some (.num "7"), none, none, none⟩
      (fun _ => .ok "\x7b\x7d")).1 (.num "7") rfl rfl,
   (claim_C10_amended ⟨[], 1, [], 1⟩ ⟨none, some (.bool true), none, none⟩
      (fun _ => .ok "\x7b\x7d")).2.1 rfl (.bool true) rfl rfl,
   (claim_C10_amended ⟨[], 1, [], 1⟩
      ⟨some (.str "dor"), some (.num "1"), none, none⟩
      (fun _ => .ok "\x7b\x7d")).2.2 "dor" rfl (by decide) rfl⟩

theorem claim_C6_witness :
    examesStr ⟨some (.str "Zé"), some (.str "9"), some (.str "2024-02-02"),
      some (.str "dx2"), none, none, some (.str "oops")⟩ = "[]" ∧
    (createProntuario ⟨[⟨4, .str "Zé", .str "9", .str "2024", .str "dx",
        .str "", .str "", "[]"⟩], 5, [], 1⟩
      ⟨some (.str "Zé"), some (.str "9"), some (.str "2024-02-02"),
        some (.str "dx2"), none, none, some (.str "oops")⟩).2.status = 201 ∧
    (createProntuario ⟨[⟨4, .str "Zé", .str "9", .str "2024", .str "dx",
        .str "", .str "", "[]"⟩], 5, [], 1⟩
      ⟨some (.str "Zé"), some (.str "9"), some (.str "2024-02-02"),
        some (.str "dx2"), none, none, some (.str "oops")⟩).1.prontuarios =
      [⟨4, .str "Zé", .str "9", .str "2024", .str "dx", .str "", .str "",
        "[]"⟩] ++
      [newRow 5 ⟨some (.str "Zé"), some (.str "9"), some (.str "2024-02-02"),
        some (.str "dx2"), none, none, some (.str "oops")⟩] ∧
    (newRow 5 ⟨some (.str "Zé"), some (.str "9"), some (.str "2024-02-02"),
      some (.str "dx2"), none, none,
      some (.str "oops")⟩).exames_solicitados = "[]" ∧
    (((⟨[⟨4, .str "Zé", .str "9", .str "2024", .str "dx", .str "", .str "",
        "[]"⟩], 5, [], 1⟩ : DB)).prontuarios.any (fun r => r.id == 4) = true →
      (updateProntuario ⟨[⟨4, .str "Zé", .str "9", .str "2024", .str "dx",
          .str "", .str "", "[]"⟩], 5, [], 1⟩ 4
        ⟨some (.str "Zé"), some (.str "9"), some (.str "2024-02-02"),
          some (.str "dx2"), none, none, some (.str "oops")⟩).2.status = 200 ∧
      ∀ r ∈ (updateProntuario ⟨[⟨4, .str "Zé", .str "9", .str "2024",
          .str "dx", .str "", .str "", "[]"⟩], 5, [], 1⟩ 4
        ⟨some (.str "Zé"), some (.str "9"), some (.str "2024-02-02"),
          some (.str "dx2"), none, none,
          some (.str "oops")⟩).1.prontuarios, r.id = 4 →
        r.exames_solicitados = "[]") :=
  claim_C6 ⟨[⟨4, .str "Zé", .str "9", .str "2024", .str "dx", .str "",
      .str "", "[]"⟩], 5, [], 1⟩
    ⟨some (.str "Zé"), some (.str "9"), some (.str "2024-02-02"),
      some (.str "dx2"), none, none, some (.str "oops")⟩
    4 (.str "oops") (by decide) rfl rfl

end MedVibe

namespace MedVibe

theorem claim_C4_witness :
    (examRows ⟨[], 1,
        [⟨1, 7, .str "RX", .null, .str "/uploads/1__x.png", .null,
          .str "2024-01-03", 5⟩,
         ⟨2, 7, .null, .str "obs", .null, .str "negativo", .null, 9⟩,
         ⟨3, 8, .str "PCR", .null, .null, .str "pos", .null, 4⟩], 4⟩
      (.str "7")).Perm
      ((⟨[], 1,
        [⟨1, 7, .str "RX", .null, .str "/uploads/1__x.png", .null,
          .str "2024-01-03", 5⟩,
         ⟨2, 7, .null, .str "obs", .null, .str "negativo", .null, 9⟩,
         ⟨3, 8, .str "PCR", .null, .null, .str "pos", .null, 4⟩], 4⟩ :
          DB).exames.filter (fun e => e.prontuario_id == 7)) ∧
    (examRows ⟨[], 1,
        [⟨1, 7, .str "RX", .null, .str "/uploads/1__x.png", .null,
          .str "2024-01-03", 5⟩,
         ⟨2, 7, .null, .str "obs", .null, .str "negativo", .null, 9⟩,
         ⟨3, 8, .str "PCR", .null, .null, .str "pos", .null, 4⟩], 4⟩
      (.str "7")).Pairwise recentFirst ∧
    fetchExamsSummary ⟨[], 1,
        [⟨1, 7, .str "RX", .null, .str "/uploads/1__x.png", .null,
          .str "2024-01-03", 5⟩,
         ⟨2, 7, .null, .str "obs", .null, .str "negativo", .null, 9⟩,
         ⟨3, 8, .str "PCR", .null, .null, .str "pos", .null, 4⟩], 4⟩
      (.str "7") =
      joinSep "\n" ((examRows ⟨[], 1,
        [⟨1, 7, .str "RX", .null, .str "/uploads/1__x.png", .null,
          .str "2024-01-03", 5⟩,
         ⟨2, 7, .null, .str "obs", .null, .str "negativo", .null, 9⟩,
         ⟨3, 8, .str "PCR", .null, .null, .str "pos", .null, 4⟩], 4⟩
        (.str "7")).map renderLine) ∧
    ((⟨[], 1,
        [⟨1, 7, .str "RX", .null, .str "/uploads/1__x.png", .null,
          .str "2024-01-03", 5⟩,
         ⟨2, 7, .null, .str "obs", .null, .str "negativo", .null, 9⟩,
         ⟨3, 8, .str "PCR", .null, .null, .str "pos", .null, 4⟩], 4⟩ :
          DB).exames.filter (fun e => e.prontuario_id == 7) = [] →
      fetchExamsSummary ⟨[], 1,
        [⟨1, 7, .str "RX", .null, .str "/uploads/1__x.png", .null,
          .str "2024-01-03", 5⟩,
         ⟨2, 7, .null, .str "obs", .null, .str "negativo", .null, 9⟩,
         ⟨3, 8, .str "PCR", .null, .null, .str "pos", .null, 4⟩], 4⟩
        (.str "7") = "") ∧
    (∀ r : ExamRow,
      renderLine r = "- " ++ joinSep " | " (renderParts r) ∧
      renderParts r = ((attrStrings r).filter Prod.fst).map Prod.snd ++
        (if r.arquivo_path.truthy && !r.resultado_texto.truthy
          then [noteSemLaudo] else []) ∧
      (noteSemLaudo ∈ renderParts r ↔
        (r.arquivo_path.truthy = true ∧ r.resultado_texto.truthy = false))) :=
  claim_C4 ⟨[], 1,
    [⟨1, 7, .str "RX", .null, .str "/uploads/1__x.png", .null,
      .str "2024-01-03", 5⟩,
     ⟨2, 7, .null, .str "obs", .null, .str "negativo", .null, 9⟩,
     ⟨3, 8, .str "PCR", .null, .null, .str "pos", .null, 4⟩], 4⟩
    (.str "7") 7 rfl

theorem claim_C5_witness :
    List.Pairwise (· < ·) (createAll ⟨[], 1, [], 1⟩
      [⟨some (.str "Ana"), some (.str "11"), some (.str "2024-01-01"),
        some (.str "gripe"), none, none,
        some (.arr [.str "Hemograma", .str "RX tórax"])⟩,
       ⟨some (.str "Bia"), some (.str "22"), some (.str "2024-01-02"),
        some (.str "dor"), some (.str "febre"), none, some (.arr [])⟩]).2 ∧
    List.Pairwise (fun a b : POut => b.id < a.id)
      (getProntuarios (createAll ⟨[], 1, [], 1⟩
        [⟨some (.str "Ana"), some (.str "11"), some (.str "2024-01-01"),
          some (.str "gripe"), none, none,
          some (.arr [.str "Hemograma", .str "RX tórax"])⟩,
         ⟨some (.str "Bia"), some (.str "22"), some (.str "2024-01-02"),
          some (.str "dor"), some (.str "febre"), none,
          some (.arr [])⟩]).1) ∧
    ∃ r ∈ getProntuarios (createAll ⟨[], 1, [], 1⟩
        [⟨some (.str "Ana"), some (.str "11"), some (.str "2024-01-01"),
          some (.str "gripe"), none, none,
          some (.arr [.str "Hemograma", .str "RX tórax"])⟩,
         ⟨some (.str "Bia"), some (.str "22"), some (.str "2024-01-02"),
          some (.str "dor"), some (.str "febre"), none,
          some (.arr [])⟩]).1,
      r.id = (createAll ⟨[], 1, [], 1⟩
        [⟨some (.str "Ana"), some (.str "11"), some (.str "2024-01-01"),
          some (.str "gripe"), none, none,
          some (.arr [.str "Hemograma", .str "RX tórax"])⟩,
         ⟨some (.str "Bia"), some (.str "22"), some (.str "2024-01-02"),
          some (.str "dor"), some (.str "febre"), none,
          some (.arr [])⟩]).2.get ⟨0, by decide⟩ ∧
      r.exames_solicitados =
        Json.arr (["Hemograma", "RX tórax"].map Json.str) := by
  have h := claim_C5 ⟨[], 1, [], 1⟩
    [⟨some (.str "Ana"), some (.str "11"), some (.str "2024-01-01"),
      some (.str "gripe"), none, none,
      some (.arr [.str "Hemograma", .str "RX tórax"])⟩,
     ⟨some (.str "Bia"), some (.str "22"), some (.str "2024-01-02"),
      some (.str "dor"), some (.str "febre"), none, some (.arr [])⟩]
    (by constructor <;> simp) (by decide)
  exact ⟨h.1, h.2.2.1,
    h.2.2.2 0 (by decide) (by decide) ["Hemograma", "RX tórax"] rfl⟩

theorem claim_C9_witness :
    (examesUpload ⟨[⟨3, .str "P", .str "1", .str "2024", .str "dx", .str "",
        .str "", "[]"⟩], 4, [], 1⟩
      ⟨some (.str "3"), some (.str "RX"), none, none, none, none⟩
      (some ⟨"naïve report (v2)/..final.png", 1712⟩) 6).1.exames = [] ++
      [⟨1, 3, (some (.str "RX") : Option Json).getD (.str ""),
        (none : Option Json).getD (.str ""),
        .str ("/uploads/" ++ (natStr 1712 ++ "__" ++
          sanitizeName "naïve report (v2)/..final.png")),
        .null,
        dataFinalBind ⟨some (.str "3"), some (.str "RX"), none, none, none,
          none⟩, 6⟩] ∧
    (examesUpload ⟨[⟨3, .str "P", .str "1", .str "2024", .str "dx", .str "",
        .str "", "[]"⟩], 4, [], 1⟩
      ⟨some (.str "3"), some (.str "RX"), none, none, none, none⟩
      (some ⟨"naïve report (v2)/..final.png", 1712⟩) 6).2.status = 201 ∧
    sanitizeName "naïve report (v2)/..final.png" =
      ⟨sanSpecRec ("naïve report (v2)/..final.png" : String).data⟩ ∧
    (∀ c ∈ (natStr 1712 ++ "__" ++
        sanitizeName "naïve report (v2)/..final.png").data,
      isSafeChar c = true ∧ c ≠ '/' ∧ c ≠ '\\') :=
  claim_C9 ⟨[⟨3, .str "P", .str "1", .str "2024", .str "dx", .str "",
      .str "", "[]"⟩], 4, [], 1⟩
    ⟨some (.str "3"), some (.str "RX"), none, none, none, none⟩
    ⟨"naïve report (v2)/..final.png", 1712⟩ 6 3 rfl (by decide) (by decide)

end MedVibe
